import Mathlib

/-!
Verification of the jira_airflow_generator translation pipeline.

This file gives a shallow embedding, in Lean 4, of the pure translation
logic of the repository:

  * `schedule_parser.py` — `timedelta_calculator`, `discover_cron`,
    `discover_timespan`;
  * `sql_generator.py` — `MAPPING_DICT`, `generate_selects`,
    `add_backticks`, `sql_statement_generator`;
  * `advertiser_report_generator.py` — the three `assemble_*_dag_json`
    job-document templates, the dispatch in `generate_json_and_sample`,
    and the whitespace post-processing of `export_json`.

Python strings are modelled as `String` / `List Char`; the handful of
regular expressions used by the source are modelled by specialised
matchers that mirror Python `re` backtracking semantics for exactly the
patterns appearing in the source (each matcher carries a comment naming
its pattern).  Fallible Python code (exceptions) is modelled with
`Except`/`Option`.  All definitions are executable and kernel-reducible.
-/

namespace JiraAirflow

/-! ## Character and string utilities (Python semantics) -/

/-- The characters Python's `str.split()` / `\s` treat as whitespace
(ASCII; the inputs handled by this pipeline are ASCII text). -/
def isPySpace (c : Char) : Bool :=
  c = ' ' || c = '\t' || c = '\n' || c = '\x0d' || c = '\x0b' || c = '\x0c'

/-- ASCII decimal digit, as used by `str.isdigit` and `\d` on this
pipeline's ASCII inputs. -/
def isDigitChar (c : Char) : Bool :=
  48 ≤ c.toNat && c.toNat ≤ 57

/-- Numeric value of a digit character. -/
def cv (c : Char) : Nat := c.toNat - 48

/-- ASCII letters — the "cased" characters relevant to `str.title` /
`str.capitalize` on this pipeline's inputs. -/
def isAsciiAlpha (c : Char) : Bool :=
  (65 ≤ c.toNat && c.toNat ≤ 90) || (97 ≤ c.toNat && c.toNat ≤ 122)

def lbrace : Char := Char.ofNat 123

def rbrace : Char := Char.ofNat 125

/-- Decimal digit character for `d < 10`. -/
def digitChar (d : Nat) : Char := Char.ofNat (48 + d)

/-- Decimal digits of `n`, most significant first; `fuel` bounds the
recursion depth (`natDigits` supplies more fuel than any `n` needs). -/
def natDigitsAux : Nat → Nat → List Char
  | 0, _ => []
  | fuel + 1, n =>
    if n < 10 then [digitChar n]
    else natDigitsAux fuel (n / 10) ++ [digitChar (n % 10)]

def natDigits (n : Nat) : List Char := natDigitsAux (n + 1) n

/-- Python's decimal rendering of a nonnegative integer (`str(n)` /
f-string interpolation of an `int`). -/
def natRepr (n : Nat) : String := String.mk (natDigits n)

/-- Python's decimal rendering of an `int`, signs included. -/
def pyIntRepr (n : Int) : String :=
  if n < 0 then "-" ++ natRepr (-n).toNat else natRepr n.toNat

/-- Value of a digit string (used to model Python `int` on digit text). -/
def digitsVal (l : List Char) : Nat :=
  l.foldl (fun a c => 10 * a + cv c) 0

/-- Python `str.isdigit`: nonempty and all digits. -/
def pyIsDigitStr (l : List Char) : Bool :=
  !l.isEmpty && l.all isDigitChar

/-- Python `str.strip()`: drop whitespace from both ends. -/
def pyStrip (l : List Char) : List Char :=
  ((l.dropWhile isPySpace).reverse.dropWhile isPySpace).reverse

/-- Python `int(s)` after whitespace stripping: optional sign then
digits, `none` models the `ValueError`.  (Python additionally tolerates
`_` separators between digits; no input in this pipeline contains
them.) -/
def pyIntCore : List Char → Option Int
  | [] => none
  | c :: r =>
    if c = '-' then
      (if !r.isEmpty && r.all isDigitChar then some (-(digitsVal r : Int)) else none)
    else if c = '+' then
      (if !r.isEmpty && r.all isDigitChar then some ((digitsVal r : Int)) else none)
    else
      (if (c :: r).all isDigitChar then some ((digitsVal (c :: r) : Int)) else none)

def pyInt (l : List Char) : Option Int := pyIntCore (pyStrip l)

/-- Python `needle in hay` substring test, on char lists. -/
def containsSeg (hay needle : List Char) : Bool :=
  match hay with
  | [] => needle.isEmpty
  | _ :: t => needle.isPrefixOf hay || containsSeg t needle

/-- Python `needle in hay` on strings. -/
def strContains (hay needle : String) : Bool :=
  containsSeg hay.data needle.data

/-- Python `hay.endswith(suffix)`. -/
def pyEndsWith (l suffix : List Char) : Bool :=
  suffix.reverse.isPrefixOf l.reverse

/-- ASCII lowercase of a string (Python `str.lower` on ASCII input). -/
def pyLower (s : String) : String := String.mk (s.data.map Char.toLower)

/-- Python `str.split()` with no argument: split on whitespace runs,
dropping empty pieces.  `acc` is the current (reversed) piece. -/
def wsSplitAux : List Char → List Char → List (List Char)
  | [], acc => if acc.isEmpty then [] else [acc.reverse]
  | c :: t, acc =>
    if isPySpace c then
      if acc.isEmpty then wsSplitAux t [] else acc.reverse :: wsSplitAux t []
    else wsSplitAux t (c :: acc)

def wsSplit (l : List Char) : List (List Char) := wsSplitAux l []

/-- Split on a single separator character, keeping empty pieces (the
split used when reading a cron string field by field, and Python
`str.split('~')`). -/
def splitChAux (sep : Char) : List Char → List Char → List String
  | [], acc => [String.mk acc.reverse]
  | c :: t, acc =>
    if c = sep then String.mk acc.reverse :: splitChAux sep t []
    else splitChAux sep t (c :: acc)

def splitCh (sep : Char) (l : List Char) : List String := splitChAux sep l []

/-- The space-separated fields of a string (agrees with
`String.splitOn " "`). -/
def spaceFields (s : String) : List String := splitCh ' ' s.data

/-- Python `str.replace(pat, rep)`: left-to-right, non-overlapping, the
replacement text is not rescanned.  `fuel` bounds the scan (callers pass
the length of the subject, which always suffices for nonempty `pat`). -/
def replaceFuel : Nat → List Char → List Char → List Char → List Char
  | 0, l, _, _ => l
  | fuel + 1, l, pat, rep =>
    match l with
    | [] => []
    | c :: t =>
      if pat.isPrefixOf (c :: t) then rep ++ replaceFuel fuel ((c :: t).drop pat.length) pat rep
      else c :: replaceFuel fuel t pat rep

def pyReplace (s pat rep : String) : String :=
  String.mk (replaceFuel s.data.length s.data pat.data rep.data)

/-- Keep-first deduplication, modelling `pandas.Series.drop_duplicates`
on the values of a series. -/
def dedupAux : List String → List String → List String
  | [], _ => []
  | a :: t, seen =>
    if seen.contains a then dedupAux t seen else a :: dedupAux t (a :: seen)

def dedup (l : List String) : List String := dedupAux l []

/-- Python `str.capitalize`: first character uppercased, rest lowered. -/
def pyCapitalize (w : List Char) : List Char :=
  match w with
  | [] => []
  | c :: t => Char.toUpper c :: t.map Char.toLower

/-- Python `str.title` (ASCII): a letter is uppercased when the previous
character is not a letter, lowercased otherwise. -/
def pyTitleGo : Bool → List Char → List Char
  | _, [] => []
  | prev, c :: t =>
    (if isAsciiAlpha c then (if prev then Char.toLower c else Char.toUpper c) else c)
      :: pyTitleGo (isAsciiAlpha c) t

def pyTitle (w : List Char) : List Char := pyTitleGo false w

/-- Python `sep.join(pieces)`. -/
def joinSep (sep : String) : List String → String
  | [] => ""
  | [x] => x
  | x :: y :: xs => x ++ sep ++ joinSep sep (y :: xs)

/-! ## Regex models

Each definition below models one regular expression appearing in the
source, with Python `re.search` semantics (leftmost match; within a
start position, greedy quantifiers with backtracking; alternation tried
left to right). -/

/-- `re.search(r'(\d+):(\d+)', s)`, returning the two groups' values.
At a start position the greedy `\d+` takes the maximal digit run; a
shorter run would leave a digit where `:` is required, so no further
backtracking can succeed and the scan advances one character. -/
def timeAt (l : List Char) : Option (Nat × Nat) :=
  let g1 := l.takeWhile isDigitChar
  match l.dropWhile isDigitChar with
  | ':' :: r =>
    let g2 := r.takeWhile isDigitChar
    if g1.isEmpty || g2.isEmpty then none else some (digitsVal g1, digitsVal g2)
  | _ => none

def timeSearch : List Char → Option (Nat × Nat)
  | [] => none
  | c :: t =>
    match timeAt (c :: t) with
    | some r => some r
    | none => timeSearch t

/-- Tail of the am/pm pattern after the hour group:
`:?(?:\d\x7b\x7b\x7d)?\s*(am|pm)`.  The doubled braces in the source
pattern `(\d+):?(?:\d{{2}})?\s*(am|pm)` are literal `\x7b\x7b\x7d`
characters (the pattern is a plain string, not an f-string), so the
optional group matches digit-brace-brace-brace text, never a minutes
field.  Greedy pieces are tried present-first, then skipped. -/
def ampmTail (m : List Char) : Option String :=
  let m' := m.dropWhile isPySpace
  if ("am".data).isPrefixOf m' then some "am"
  else if ("pm".data).isPrefixOf m' then some "pm"
  else none

def ampmBrace (m : List Char) : Option String :=
  match m with
  | d :: c1 :: c2 :: c3 :: m' =>
    if isDigitChar d && c1 = lbrace && c2 = lbrace && c3 = rbrace then
      match ampmTail m' with
      | some g => some g
      | none => ampmTail m
    else ampmTail m
  | _ => ampmTail m

def ampmFrom (rest : List Char) : Option String :=
  match rest with
  | ':' :: r =>
    (match ampmBrace r with
     | some g => some g
     | none => ampmBrace (':' :: r))
  | _ => ampmBrace rest

/-- Hour-group backtracking for `(\d+):?(?:\d\x7b\x7b\x7d)?\s*(am|pm)`:
`v` is the value of the digits consumed so far; longer runs are tried
before shorter ones (greedy `\d+`). -/
def ampmRunGo (v : Nat) (l : List Char) : Option (Nat × String) :=
  match l with
  | [] =>
    match ampmFrom [] with
    | some g => some (v, g)
    | none => none
  | c :: t =>
    if isDigitChar c then
      match ampmRunGo (v * 10 + cv c) t with
      | some res => some res
      | none =>
        match ampmFrom l with
        | some g => some (v, g)
        | none => none
    else
      match ampmFrom l with
      | some g => some (v, g)
      | none => none

def ampmSearch : List Char → Option (Nat × String)
  | [] => none
  | c :: t =>
    match (if isDigitChar c then ampmRunGo (cv c) t else none) with
    | some r => some r
    | none => ampmSearch t

/-- `re.search(r'(\d{1,2}/\d{1,2})', s)`: values of the two digit groups
around the slash.  `grab12` reads the greedy 1–2 digit group at the head
of its input. -/
def grab12 : List Char → Option Nat
  | [] => none
  | [c1] => if isDigitChar c1 then some (cv c1) else none
  | c1 :: c2 :: _ =>
    if isDigitChar c1 then
      some (if isDigitChar c2 then cv c1 * 10 + cv c2 else cv c1)
    else none

def mmddAt : List Char → Option (Nat × Nat)
  | c1 :: '/' :: r =>
    if isDigitChar c1 then
      match grab12 r with
      | some d => some (cv c1, d)
      | none => none
    else none
  | c1 :: c2 :: '/' :: r =>
    if isDigitChar c1 && isDigitChar c2 then
      match grab12 r with
      | some d => some (cv c1 * 10 + cv c2, d)
      | none => none
    else none
  | _ => none

def searchMMDD : List Char → Option (Nat × Nat)
  | [] => none
  | c :: t =>
    match mmddAt (c :: t) with
    | some r => some r
    | none => searchMMDD t

/-- `re.findall(r'\d+', s)`: values of the maximal digit runs, in order.
`cur` is the value of the run currently being read. -/
def findAllAux : Option Nat → List Char → List Nat
  | cur, [] =>
    match cur with
    | some v => [v]
    | none => []
  | cur, c :: t =>
    if isDigitChar c then findAllAux (some ((cur.getD 0) * 10 + cv c)) t
    else
      match cur with
      | some v => v :: findAllAux none t
      | none => findAllAux none t

def findAllNums (l : List Char) : List Nat := findAllAux none l

/-- `re.search(r'(\d+)\s*day', s)`: value of the first maximal digit run
followed by optional whitespace and the literal `day`.  (Shorter runs
starting inside the same maximal run see the same tail, so checking the
maximal run only is equivalent to full backtracking.) -/
def dayAfter (l : List Char) : Bool :=
  ("day".data).isPrefixOf (l.dropWhile isPySpace)

def numDayAux : Option Nat → List Char → Option Nat
  | _, [] => none
  | cur, c :: t =>
    if isDigitChar c then numDayAux (some ((cur.getD 0) * 10 + cv c)) t
    else
      match cur with
      | some v => if dayAfter (c :: t) then some v else numDayAux none t
      | none => numDayAux none t

def searchNumDay (l : List Char) : Option Nat := numDayAux none l

/-! ## `schedule_parser.timedelta_calculator` -/

/-- The minute part of `timedelta_calculator`
(`int(minute_val) if minute_val.isdigit() else 0` on `parsed[0]`). -/
def tdMinute (parsed : List (List Char)) : Int :=
  let m := (parsed.get? 0).getD []
  if pyIsDigitStr m then (digitsVal m : Int) else 0

/-- The `standard_start_time` baseline (03:00) of `timedelta_calculator`. -/
def standardStartTime : Int := 3

/-- Daily branch of `timedelta_calculator` (cron with all-`*` tail). -/
def tdDaily (parsed : List (List Char)) : Except String (String × Int × Int) :=
  if parsed.length ≥ 2 then
    match parsed.get? 1 with
    | none => .error "IndexError"
    | some hf =>
      match pyInt hf with
      | none => .error "ValueError: invalid literal for int()"
      | some hv => .ok ("Daily", hv - standardStartTime, tdMinute parsed)
  else .ok ("Daily", 0, 0)

/-- Weekly branch of `timedelta_calculator` (last non-space character of
the cron is not `*`). -/
def tdWeekly (parsed : List (List Char)) : Except String (String × Int × Int) :=
  match parsed.getLast? with
  | none => .error "IndexError"
  | some wstr =>
    if pyIsDigitStr wstr then
      match parsed.get? 1 with
      | none => .error "IndexError"
      | some hf =>
        match pyInt hf with
        | none => .error "ValueError: invalid literal for int()"
        | some hv =>
          .ok ("Weekly", -(((digitsVal wstr : Int)) * 24 - (hv - standardStartTime)),
               tdMinute parsed)
    else .ok ("Weekly", 0, tdMinute parsed)

def threeStars : List Char := ['*', '*', '*']

/-- `schedule_parser.timedelta_calculator`: classify a cron string and
derive `[report_type, time_delta_hour, time_delta_minutes]`.  Errors
model the Python exceptions (`ValueError` on empty input or a
non-numeric hour, `IndexError` on an all-whitespace input). -/
def timedelta_calculator (cron_value : String) : Except String (String × Int × Int) :=
  if cron_value = "" then .error "cron_value cannot be empty."
  else
    -- `trimmed` is `re.sub(r'\s+', '', cron_value)`, `parsed` is
    -- `cron_value.split()`; both occurrences below denote those values.
    if pyEndsWith (cron_value.data.filter (fun c => !isPySpace c)) threeStars then
      tdDaily (wsSplit cron_value.data)
    else
      match (cron_value.data.filter (fun c => !isPySpace c)).getLast? with
      | none => .error "IndexError: string index out of range"
      | some c =>
        if c ≠ '*' then tdWeekly (wsSplit cron_value.data)
        else .ok ("Monthly", 0, 0)

/-! ## `schedule_parser.discover_cron` -/

/-- Minute extraction of `discover_cron`: second group of the first row
matching `(\d+):(\d+)`, default 0. -/
def cronMinute (dfLower : List String) : Nat :=
  match dfLower.findSome? (fun r => timeSearch r.data) with
  | some (_, mins) => mins
  | none => 0

/-- Hour extraction of `discover_cron`: first row matching the am/pm
pattern, with 12-hour→24-hour conversion (`pm` and hour < 12 adds 12);
default 4. -/
def cronHour0 (dfLower : List String) : Int :=
  match dfLower.findSome? (fun r => ampmSearch r.data) with
  | some (h, ap) => if ap = "pm" && decide (h < 12) then (h : Int) + 12 else (h : Int)
  | none => 4

/-- Timezone adjustment of `discover_cron`, keyed on substrings of the
first row (Pacific baseline). -/
def cronHourTz (first : String) (h : Int) : Int :=
  if strContains first "ct" || strContains first "cst" then h - 2
  else if strContains first "et" || strContains first "est" || strContains first "edt" then h - 3
  else if strContains first "mt" || strContains first "mst" then h - 1
  else h

/-- Weekday table of `discover_cron`, in Python dict iteration order;
the loop breaks at the first name contained in the first row. -/
def weekdayPairs : List (String × Nat) :=
  [("monday", 1), ("tuesday", 2), ("wednesday", 3), ("thursday", 4),
   ("friday", 5), ("saturday", 6), ("sunday", 0)]

def weekdayLookup : List (String × Nat) → String → Option Nat
  | [], _ => none
  | (nm, v) :: t, first =>
    if strContains first nm then some v else weekdayLookup t first

def cronWeek (first : String) : Nat :=
  (weekdayLookup weekdayPairs first).getD 1

/-- Daily cron f-string `f'{minute_value} {hour_value} * * *'`. -/
def mkDailyCron (m h : Nat) : String :=
  natRepr m ++ " " ++ natRepr h ++ " * * *"

/-- Weekly cron f-string `f'{minute_value} {hour_value} * * {week_value}'`. -/
def mkWeeklyCron (m h w : Nat) : String :=
  natRepr m ++ " " ++ natRepr h ++ " * * " ++ natRepr w

/-- `schedule_parser.discover_cron` on the deduplicated, lowercased
series of schedule texts.  `none` models the `IndexError` raised by
`df_lower.iloc[0]` on an empty series.  The hour is reduced modulo 24
after the timezone shift; Python's `%` on a positive modulus is
nonnegative, matching `Int.emod`, so the printed hour is
`(… % 24).toNat`. -/
def discover_cron (rows : List String) : Option String :=
  match dedup (rows.map pyLower) with
  | [] => none
  | first :: rest =>
    if strContains first "daily" || strContains first " day" then
      some (mkDailyCron (cronMinute (first :: rest))
        (((cronHourTz first (cronHour0 (first :: rest))) % 24).toNat))
    else
      some (mkWeeklyCron (cronMinute (first :: rest))
        (((cronHourTz first (cronHour0 (first :: rest))) % 24).toNat)
        (cronWeek first))

/-! ## `schedule_parser.discover_timespan` -/

/-- The result of `datetime.today()`, passed explicitly to keep the
embedding pure. -/
structure PyDate where
  year : Nat
  month : Nat
  day : Nat
deriving DecidableEq

def isLeapYear (y : Nat) : Bool :=
  (y % 4 = 0 && y % 100 ≠ 0) || y % 400 = 0

def daysInMonth (y m : Nat) : Nat :=
  if m = 2 then (if isLeapYear y then 29 else 28)
  else if m = 4 || m = 6 || m = 9 || m = 11 then 30
  else 31

/-- The dates accepted by `datetime(year, month, day)`
(`MINYEAR = 1`, `MAXYEAR = 9999`). -/
def validYMD (y m d : Nat) : Bool :=
  1 ≤ y && y ≤ 9999 && 1 ≤ m && m ≤ 12 && 1 ≤ d && d ≤ daysInMonth y m

/-- Zero-padded two-digit rendering, Python `f'{n:02d}'` for `n ≥ 0`. -/
def pad2 (n : Nat) : String :=
  if n < 10 then "0" ++ natRepr n else natRepr n

/-- Zero-padded four-digit rendering, Python `f'{n:04d}'` for `n ≥ 0`. -/
def pad4 (n : Nat) : String :=
  if n < 10 then "000" ++ natRepr n
  else if n < 100 then "00" ++ natRepr n
  else if n < 1000 then "0" ++ natRepr n
  else natRepr n

/-- `parsed_date.strftime('%Y-%m-%d')` (glibc `%Y` prints the year
unpadded; `%m`/`%d` are zero-padded to two digits).  For the four-digit
years this pipeline produces, `%Y` equals the plain decimal rendering. -/
def strfDate (y m d : Nat) : String :=
  natRepr y ++ "-" ++ pad2 m ++ "-" ++ pad2 d

/-- The dynamically-typed value returned by `discover_timespan`
(`Union[str, int, None]`) and threaded through the job assemblers. -/
inductive TsVal where
  | int (n : Int)
  | str (s : String)
  | pyNone
deriving DecidableEq

/-- Python `str(v)` on a timespan value (f-string interpolation). -/
def pyStr : TsVal → String
  | .int n => pyIntRepr n
  | .str s => s
  | .pyNone => "None"

/-- The `try: datetime(year, month, day) … except ValueError: pass` step
of the ongoing/starting branch: keep the formatted start date when the
components form a real date, otherwise fall through to the unparsed
result. -/
def mkOngoing (y mo dy : Nat) : TsVal :=
  if validYMD y mo dy then .str (strfDate y mo dy) else .pyNone

/-- Progressive interpretation of the 0–3 extracted numbers in the
ongoing/starting branch (month, then month/day, then month/day/year
with two-digit years promoted by 2000). -/
def ongoingResult (today : PyDate) : List Nat → TsVal
  | [] => mkOngoing today.year today.month today.day
  | [n0] => mkOngoing today.year n0 today.day
  | [n0, n1] => mkOngoing today.year n0 n1
  | n0 :: n1 :: n2 :: _ => mkOngoing (if n2 < 100 then n2 + 2000 else n2) n0 n1

/-- The classification chain of `discover_timespan` on the lowercased
first value.  Each branch of the source's if/elif chain sets exactly one
of the `date_value` / `days_back` sentinels, so the chain is rendered as
directly producing the result; `.pyNone` is the unparsed result
(`None`). -/
def timespanOf (today : PyDate) (value_str : String) : TsVal :=
  if strContains value_str "present" then
    match searchMMDD value_str.data with
    | some (mo, dy) =>
      .str (pad4 today.year ++ "-" ++ pad2 mo ++ "-" ++ pad2 dy)
    | none => .pyNone
  else if strContains value_str "mtd" || strContains value_str "month to date" then
    .str "toStartOfMonth(today())"
  else if strContains value_str "ytd" || strContains value_str "year to date" then
    .str "toStartOfYear(today())"
  else if strContains value_str "prior day" || strContains value_str "previous day" then
    .int 1
  else if strContains value_str "ongoing" || strContains value_str "starting" then
    ongoingResult today (findAllNums value_str.data)
  else
    match searchNumDay value_str.data with
    | some n => .int (n : Int)
    | none => .pyNone

/-- `schedule_parser.discover_timespan`: deduplicate, lowercase, take
the first value, and classify it. -/
def discover_timespan (today : PyDate) (rows : List String) : TsVal :=
  match rows with
  | [] => .pyNone
  | v0 :: _ => timespanOf today (pyLower v0)

/-! ## `sql_generator` -/

/-- `sql_generator.MAPPING_DICT`, in source order.  The source dict
literal repeats the key `'ad group'` with the same value (in Python the
later entry overwrites the earlier identical one); lookup below takes
the first match, which coincides with Python's dict lookup here. -/
def MAPPING_DICT : List (String × String) :=
  [("date", "event_date"),
   ("partner id", "partner_id"),
   ("ad group name", "adgroup_name"),
   ("ad group", "adgroup_name"),
   ("adgroup name", "adgroup_name"),
   ("adgroup", "adgroup_name"),
   ("ad group", "adgroup_name"),
   ("adgroup lid", "adgroup_lid"),
   ("adgroup hid", "adgroup_hid"),
   ("campaign", "campaign_name"),
   ("campaign name", "campaign_name"),
   ("campaign lid", "campaign_lid"),
   ("campaign hid", "campaign_hid"),
   ("sid", "sid"),
   ("said", "said"),
   ("sid-said", "concat(sid,\"~\",said)"),
   ("advertiser name", "advertiser_name"),
   ("advertiser", "advertiser_name"),
   ("keyword", "viewed_text"),
   ("pub name", "affiliate_account_name"),
   ("publisher name", "affiliate_account_name"),
   ("publisher", "affiliate_account_name"),
   ("publisher lid", "affiliate_account_lid"),
   ("publisher hid", "affiliate_account_hid"),
   ("source name", "traffic_source_name"),
   ("source", "traffic_source_name"),
   ("traffic source lid", "traffic_source_lid"),
   ("traffic source hid", "traffic_source_hid"),
   ("cpc", "CASE WHEN isNaN(round(sum(revenue)/sum(paid_clicks),2)) THEN 0 ELSE round(sum(revenue)/sum(paid_clicks),2) END"),
   ("cpa", "CASE WHEN isNaN(round(sum(revenue)/sum(actions_worth), 2)) THEN 0 WHEN isInfinite(round(sum(revenue)/sum(actions_worth), 2)) THEN 0 ELSE round(sum(revenue)/sum(actions_worth), 2) END"),
   ("ctr", "COALESCE(ROUND(SUM(paid_clicks)/SUM(impressions), 6), 0)"),
   ("cvr", "COALESCE(ROUND(SUM(actions_worth) / SUM(paid_clicks), 6), 0)"),
   ("clicks", "COALESCE(sum(paid_clicks),0)"),
   ("conversions", "COALESCE(sum(event_fires),0)"),
   ("reservations", "COALESCE(sum(event_fires),0)"),
   ("actions", "COALESCE(sum(actions_worth),0)"),
   ("conversion rate", "round(sum(actions_worth)/sum(paid_clicks), 4)"),
   ("conversion value", "round(COALESCE(sum(dollars_worth),0),2)"),
   ("impressions", "round(COALESCE(sum(impressions),0),0)"),
   ("imps", "round(COALESCE(sum(impressions),0),0)"),
   ("spend", "round(COALESCE(sum(revenue),0),2)"),
   ("cost", "round(COALESCE(sum(revenue),0),2)"),
   ("revenue", "round(COALESCE(sum(dollars_worth),0),2)"),
   ("inquiries", "round(COALESCE(sum(actions_worth),0),2)"),
   ("purchases", "round(COALESCE(sum(event_fires),0),2)")]

/-- `sql_generator.generate_selects`: map a field name to its SQL
expression via `MAPPING_DICT.get(main_text.strip().lower(), None)`. -/
def generate_selects (main_text : String) : Option String :=
  MAPPING_DICT.lookup (String.mk ((pyStrip main_text.data).map Char.toLower))

/-- `sql_generator.add_backticks`: backtick-quote a name containing a
space. -/
def add_backticks (value : String) : String :=
  if value.data.contains ' ' then "`" ++ value ++ "`" else value

/-- The `re.split(r'\n|\, and |\, |,', …)` column splitter: at each
position the alternatives are tried in the pattern's order. -/
def splitColsAux : List Char → List Char → List String
  | [], acc => [String.mk acc.reverse]
  | '\n' :: t, acc => String.mk acc.reverse :: splitColsAux t []
  | ',' :: ' ' :: 'a' :: 'n' :: 'd' :: ' ' :: t, acc =>
    String.mk acc.reverse :: splitColsAux t []
  | ',' :: ' ' :: t, acc => String.mk acc.reverse :: splitColsAux t []
  | ',' :: t, acc => String.mk acc.reverse :: splitColsAux t []
  | c :: t, acc => splitColsAux t (c :: acc)

def splitCols (s : String) : List String := splitColsAux s.data []

/-- Does the alternative `\s*-\s*` followed by `$` match the whole rest?
(The dash alternative of extraction pattern 1 captures nothing and is
followed directly by the anchor, so it only matches whitespace, one
dash, then whitespace running to the end of the token.) -/
def wsDashWsEnd (l : List Char) : Bool :=
  match l.dropWhile isPySpace with
  | '-' :: r => (r.dropWhile isPySpace).isEmpty
  | _ => false

/-- The alternative `\s*=\s*(.*)` followed by `$`: first non-whitespace
character is `=`; the group takes everything after the `=` and the
whitespace following it. -/
def eqAnnot (l : List Char) : Option String :=
  match l.dropWhile isPySpace with
  | '=' :: r => some (String.mk (r.dropWhile isPySpace))
  | _ => none

/-- Extraction pattern 1, `^(.*?)(?:\s*-\s*|\s*=\s*(.*))?$`: the lazy
first group grows until the optional group (dash alternative first,
then equals alternative) or the bare anchor matches the remainder; the
pattern matches every newline-free token, so group 1 is never missing.
Returns (group 1, group 2). -/
def pat1Go : List Char → List Char → String × Option String
  | pre, rest =>
    if wsDashWsEnd rest then (String.mk pre.reverse, none)
    else
      match eqAnnot rest with
      | some ann => (String.mk pre.reverse, some ann)
      | none =>
        match rest with
        | [] => (String.mk pre.reverse, none)
        | c :: t => pat1Go (c :: pre) t

def pat1 (tok : String) : String × Option String := pat1Go [] tok.data

def notParen (c : Char) : Bool := !(c = '(' || c = ')')

/-- Extraction pattern 2, `^([^()]+)\s*\(([^()]+)\)$`.  (Downstream this
is dead code: pattern 1 matches every token, so its group 1 is never
null and the `fillna` chain never reads pattern 2's groups.) -/
def pat2 (l : List Char) : Option (String × String) :=
  let A := l.takeWhile notParen
  match A, l.dropWhile notParen with
  | [], _ => none
  | _ :: _, '(' :: r =>
    (match r.dropWhile notParen with
     | [')'] =>
       let B := r.takeWhile notParen
       if B.isEmpty then none else some (String.mk A, String.mk B)
     | _ => none)
  | _, _ => none

/-- `_transform_text`: capitalize words of length ≤ 3, title-case longer
words, rejoin with single spaces. -/
def transform_text (s : String) : String :=
  joinSep " "
    ((wsSplit s.data).map
      (fun w => String.mk (if w.length ≤ 3 then pyCapitalize w else pyTitle w)))

/-- One row of `select_df` in `sql_statement_generator`, named after the
source's columns. -/
structure ColRow where
  main_text : String
  infoAnn : Option String
  modified_main_text : String
  selects_for_sql : Option String
  aliases_for_sql : String
  json_col_names : String
  final_sql_select_column : String
  sample_main_text : String
  sample_report_selects : String
deriving DecidableEq

/-- Build one `select_df` row from a (lowercased) token: the two
extraction patterns, the `fillna` chain (a no-op for `main_text`, since
pattern 1 always matches), the display label, the mapped expression
(`fillna('')` renders a missing expression as the empty string), the
alias, and the sample-report variants. -/
def mkColRow (tok : String) : ColRow :=
  let p1 := pat1 tok
  let mt := p1.1
  let ann :=
    match p1.2 with
    | some i => some i
    | none => (pat2 tok.data).map (fun q => q.2)
  let modified := transform_text mt
  let sel := generate_selects mt
  let aliasC := String.mk (mt.data.map (fun c => if c = ' ' then '_' else c)) ++ "_as_column"
  let sampleMain := add_backticks modified
  { main_text := mt
    infoAnn := ann
    modified_main_text := modified
    selects_for_sql := sel
    aliases_for_sql := aliasC
    json_col_names := aliasC ++ "|" ++ modified
    final_sql_select_column := sel.getD "" ++ " as " ++ aliasC
    sample_main_text := sampleMain
    sample_report_selects := sel.getD "" ++ " as " ++ sampleMain }

/-- The rows of `select_df`: lowercase, split on the separator set,
build each row, and drop rows whose `main_text` is empty (the
`select_df[select_df['main_text'] != '']` filter; the source computes
the display label before the filter and the remaining columns after it,
which is equivalent row-wise). -/
def selectRows (cols : String) : List ColRow :=
  ((splitCols (pyLower cols)).map mkColRow).filter (fun r => r.main_text ≠ "")

/-- `melted_column_names`: `', '.join(select_df['json_col_names'])`. -/
def meltedColumnNames (cols : String) : String :=
  joinSep ", " ((selectRows cols).map (fun r => r.json_col_names))

/-- `melted_base_sql`. -/
def meltedBaseSql (cols : String) : String :=
  "SELECT " ++ joinSep ", " ((selectRows cols).map (fun r => r.final_sql_select_column))
    ++ " FROM ad_event_view "

/-- The aggregate test
`str.contains('sum|count|min|max', case=False, na=False)`: a
case-insensitive substring search for any of the four keywords, false
on a missing expression. -/
def isAggRow (r : ColRow) : Bool :=
  match r.selects_for_sql with
  | none => false
  | some e =>
    let le := pyLower e
    strContains le "sum" || strContains le "count" || strContains le "min" || strContains le "max"

/-- `group_by_df`: the rows whose expression does not contain an
aggregate keyword (missing expressions count as non-aggregate here and
are only dropped by the later `dropna`). -/
def groupByRows (cols : String) : List ColRow :=
  (selectRows cols).filter (fun r => !isAggRow r)

/-- The GROUP BY items: `group_by_df['selects_for_sql'].dropna()`. -/
def groupByItems (cols : String) : List String :=
  (groupByRows cols).filterMap (fun r => r.selects_for_sql)

/-- `melted_group_by`. -/
def meltedGroupBy (cols : String) : String :=
  joinSep ", " (groupByItems cols)

/-- `sample_melted_base_sql`. -/
def sampleMeltedBaseSql (cols : String) : String :=
  "SELECT " ++ joinSep ", " ((selectRows cols).map (fun r => r.sample_report_selects))
    ++ " FROM ad_event_view "

/-- The six-element result of `sql_statement_generator`, with the
source's index positions named. -/
structure SqlElements where
  melted_column_names : String      -- [0]
  melted_base_sql : String          -- [1]
  lid : String                      -- [2]
  hid : String                      -- [3]
  melted_group_by : String          -- [4]
  sample_melted_base_sql : String   -- [5]
deriving DecidableEq

/-- `sql_generator.sql_statement_generator` on the single-row input
dataframe, given its `sql_select_columns` and `lid_hid` fields.  The
error models the `KeyError` of `split('~', expand=True)[1]` when
`lid_hid` has no `~`. -/
def sql_statement_generator (cols lid_hid : String) : Except String SqlElements :=
  match splitCh '~' lid_hid.data with
  | l :: h :: _ =>
    .ok { melted_column_names := meltedColumnNames cols
          melted_base_sql := meltedBaseSql cols
          lid := l
          hid := h
          melted_group_by := meltedGroupBy cols
          sample_melted_base_sql := sampleMeltedBaseSql cols }
  | _ => .error "KeyError: 1"

/-! ## `advertiser_report_generator`: the job assemblers

The three `assemble_*_dag_json` methods build the job document from a
Python f-string.  Literal braces of the JSON text (written `{{`/`}}` in
the f-string) appear below as `\x7b`/`\x7d`; each interpolation hole of
the f-string becomes a `++` splice.  Errors propagate from
`timedelta_calculator`. -/

/-- `AdvertiserReportGenerator.assemble_int_dag_json` (fixed days-back
timespans). -/
def assemble_int_dag_json (delivery recipients advertiser_input : String)
    (time_span : Int) (cron_job : String) (sql : SqlElements) :
    Except String String :=
  match timedelta_calculator cron_job with
  | .error e => .error e
  | .ok td =>
    .ok ("\n        \x7b\n          \"export_setting\": \x7b\n            \"export_type\": \""
      ++ delivery
      ++ "\",\n            \"mail_to\": \""
      ++ recipients
      ++ ", chris.pachulski@ad.net\",\n            \"attachment_name\": \"adnet_"
      ++ advertiser_input
      ++ "_$\x7bstart_date\x7d_$\x7bend_date\x7d.csv\",\n            \"export_dest_dir\": \"\",\n            \"mail_subject\": \"Ad.net - "
      ++ pyReplace advertiser_input "_" " " ++ " " ++ td.1
      ++ " Report\",\n            \"export_password\": \"\",\n            \"export_url\": \"\",\n            \"mail_from\": \"NO-REPLY@ad.net\",\n            \"mail_body\": \"Stats attached.\",\n            \"export_username\": \"\"\n          \x7d,\n          \"report_definition\": \x7b\n            \"reportType\": \"SCRIPTED\",\n            \"quotechar\": \"\\\"\",\n            \"report_for_past_n_days\": "
      ++ pyIntRepr time_span
      ++ ",\n            \"escapechar\": \"\\\"\",\n            \"columns\": \""
      ++ sql.melted_column_names
      ++ "\",\n            \"calculateTotals\": false,\n            \"lowerCtr\": \"\",\n            \"upperCtr\": \"\",\n            \"separator\": \",\",\n            \"lineEnd\": \"\\n\",\n            \"scriptedTableReport\": \x7b\n                \"database\": \"CLICKHOUSE\",\n                \"scriptedSql\": \""
      ++ sql.melted_base_sql
      ++ " where event_date BETWEEN :startDate AND :endDate AND (advertiser_lid = "
      ++ sql.lid
      ++ " AND advertiser_hid = "
      ++ sql.hid
      ++ ") GROUP BY "
      ++ sql.melted_group_by
      ++ " ORDER BY event_date desc\"\n            \x7d\n          \x7d,\n          \"external_dependency\": \x7b\n            \"timedelta\": \x7b\n                \"hours\": "
      ++ pyIntRepr td.2.1
      ++ ",\n                \"minutes\": "
      ++ pyIntRepr td.2.2
      ++ "\n            \x7d,\n            \"task_id\": \"process_completed_notification\",\n            \"dag_id\": \"traffic-server-etl-daily\"\n          \x7d,\n          \"schedule_interval\": \""
      ++ cron_job
      ++ "\"\n        \x7d\n        ")

/-- `AdvertiserReportGenerator.assemble_str_dag_json` (absolute
start-date timespans). -/
def assemble_str_dag_json (delivery recipients advertiser_input : String)
    (time_span : String) (cron_job : String) (sql : SqlElements) :
    Except String String :=
  match timedelta_calculator cron_job with
  | .error e => .error e
  | .ok td =>
    .ok ("\n        \x7b\n          \"export_setting\": \x7b\n            \"export_type\": \""
      ++ delivery
      ++ "\",\n            \"mail_to\": \""
      ++ recipients
      ++ ", chris.pachulski@ad.net\",\n            \"attachment_name\": \"adnet_"
      ++ advertiser_input ++ "_" ++ time_span
      ++ "_$\x7bend_date\x7d.csv\",\n            \"export_dest_dir\": \"\",\n            \"mail_subject\": \"Ad.net - "
      ++ pyReplace advertiser_input "_" " " ++ " " ++ td.1
      ++ " Report\",\n            \"export_password\": \"\",\n            \"export_url\": \"\",\n            \"mail_from\": \"NO-REPLY@ad.net\",\n            \"mail_body\": \"Stats attached.\",\n            \"export_username\": \"\"\n          \x7d,\n          \"report_definition\": \x7b\n            \"reportType\": \"SCRIPTED\",\n            \"quotechar\": \"\\\"\",\n            \"report_for_past_n_days\": 1,\n            \"escapechar\": \"\\\"\",\n            \"columns\": \""
      ++ sql.melted_column_names
      ++ "\",\n            \"calculateTotals\": false,\n            \"lowerCtr\": \"\",\n            \"upperCtr\": \"\",\n            \"separator\": \",\",\n            \"lineEnd\": \"\\n\",\n            \"scriptedTableReport\": \x7b\n                \"database\": \"CLICKHOUSE\",\n                \"scriptedSql\": \""
      ++ sql.melted_base_sql
      ++ " where event_date BETWEEN '" ++ time_span
      ++ "' AND :endDate AND (advertiser_lid = "
      ++ sql.lid
      ++ " AND advertiser_hid = "
      ++ sql.hid
      ++ ") GROUP BY "
      ++ sql.melted_group_by
      ++ " ORDER BY event_date desc\"\n            \x7d\n          \x7d,\n          \"external_dependency\": \x7b\n            \"timedelta\": \x7b\n                \"hours\": "
      ++ pyIntRepr td.2.1
      ++ ",\n                \"minutes\": "
      ++ pyIntRepr td.2.2
      ++ "\n            \x7d,\n            \"task_id\": \"process_completed_notification\",\n            \"dag_id\": \"traffic-server-etl-daily\"\n          \x7d,\n          \"schedule_interval\": \""
      ++ cron_job
      ++ "\"\n        \x7d\n        ")

/-- The `==` comparisons of `assemble_default_dag_json` against the
rolling-window marker strings; in Python an `int` or `None` timespan
never equals a string. -/
def tsEqStr (v : TsVal) (s : String) : Bool :=
  match v with
  | .str t => t = s
  | _ => false

/-- `AdvertiserReportGenerator.assemble_default_dag_json` (rolling
windows and every timespan that is neither an `int` nor a dashed
string, including the unparsed `None`, which f-string interpolation
renders as the text `None`). -/
def assemble_default_dag_json (delivery recipients advertiser_input : String)
    (time_span : TsVal) (cron_job : String) (sql : SqlElements) :
    Except String String :=
  match timedelta_calculator cron_job with
  | .error e => .error e
  | .ok td =>
    let dsf : String × String × String :=
      if tsEqStr time_span "toStartOfMonth(today())" then
        ("MTD", "MTD Report", "toStartOfMonth(today()) AND :endDate")
      else if tsEqStr time_span "toStartOfYear(today())" then
        ("YTD", "YTD Report", "toStartOfYear(today()) AND :endDate")
      else
        (pyStr time_span, td.1 ++ " Report", ":startDate AND :endDate")
    .ok ("\n        \x7b\n          \"export_setting\": \x7b\n            \"export_type\": \""
      ++ delivery
      ++ "\",\n            \"mail_to\": \""
      ++ recipients
      ++ ", chris.pachulski@ad.net\",\n            \"attachment_name\": \"adnet_"
      ++ advertiser_input ++ "_" ++ dsf.1
      ++ "_$\x7bend_date\x7d.csv\",\n            \"export_dest_dir\": \"\",\n            \"mail_subject\": \"Ad.net - "
      ++ pyReplace advertiser_input "_" " " ++ " " ++ dsf.2.1
      ++ "\",\n            \"export_password\": \"\",\n            \"export_url\": \"\",\n            \"mail_from\": \"NO-REPLY@ad.net\",\n            \"mail_body\": \"Stats attached.\",\n            \"export_username\": \"\"\n          \x7d,\n          \"report_definition\": \x7b\n            \"reportType\": \"SCRIPTED\",\n            \"quotechar\": \"\\\"\",\n            \"report_for_past_n_days\": 1,\n            \"escapechar\": \"\\\"\",\n            \"columns\": \""
      ++ sql.melted_column_names
      ++ "\",\n            \"calculateTotals\": false,\n            \"lowerCtr\": \"\",\n            \"upperCtr\": \"\",\n            \"separator\": \",\",\n            \"lineEnd\": \"\\n\",\n            \"scriptedTableReport\": \x7b\n                \"database\": \"CLICKHOUSE\",\n                \"scriptedSql\": \""
      ++ sql.melted_base_sql
      ++ " where event_date BETWEEN " ++ dsf.2.2
      ++ " AND (advertiser_lid = "
      ++ sql.lid
      ++ " AND advertiser_hid = "
      ++ sql.hid
      ++ ") GROUP BY "
      ++ sql.melted_group_by
      ++ " ORDER BY event_date desc\"\n            \x7d\n          \x7d,\n          \"external_dependency\": \x7b\n            \"timedelta\": \x7b\n                \"hours\": "
      ++ pyIntRepr td.2.1
      ++ ",\n                \"minutes\": "
      ++ pyIntRepr td.2.2
      ++ "\n            \x7d,\n            \"task_id\": \"process_completed_notification\",\n            \"dag_id\": \"traffic-server-etl-daily\"\n          \x7d,\n          \"schedule_interval\": \""
      ++ cron_job
      ++ "\"\n        \x7d\n        ")

/-- The whitespace post-processing of `export_json`:
`airflow_dag.replace('\n', '').replace('    ', '')`, applied to
whatever document reaches step 7 before it is written to the
caller-supplied path. -/
def export_json_text (airflow_dag : String) : String :=
  pyReplace (pyReplace airflow_dag "\n" "") "    " ""

/-- The timespan dispatch of `generate_json_and_sample` (step 6):
`int` timespans go to the int assembler, strings containing `-` to the
string assembler, and everything else — including the unparsed `None`
— to the default assembler.  Step 7 then unconditionally writes the
result via `export_json`. -/
def assembleDagJsonFor (delivery recipients advertiser_input : String)
    (time_span : TsVal) (cron_job : String) (sql : SqlElements) :
    Except String String :=
  match time_span with
  | .int n => assemble_int_dag_json delivery recipients advertiser_input n cron_job sql
  | .str s =>
    if strContains s "-" then
      assemble_str_dag_json delivery recipients advertiser_input s cron_job sql
    else
      assemble_default_dag_json delivery recipients advertiser_input (.str s) cron_job sql
  | .pyNone =>
    assemble_default_dag_json delivery recipients advertiser_input .pyNone cron_job sql

/-! ## Auxiliary notions used in claim statements -/

/-- A nonempty all-digits string (a concrete decimal integer field). -/
def isDigitString (s : String) : Bool :=
  !s.data.isEmpty && s.data.all isDigitChar

/-- A well-formed cron field for the lag-calculator claims: either the
literal `*` or a nonempty digit string. -/
def starOrDigits (f : String) : Prop :=
  f = "*" ∨ (f.data ≠ [] ∧ f.data.all isDigitChar = true)

/-- A concrete six-element SQL bundle — the `sql_statement_generator`
output for the column text `"date, clicks"` with `lid_hid = "12~34"`
(checked by an example in the theorem section) — used to evaluate the
assemblers at concrete inputs. -/
def sampleSqlElements : SqlElements :=
  { melted_column_names := "date_as_column|Date, clicks_as_column|Clicks"
    melted_base_sql := "SELECT event_date as date_as_column, COALESCE(sum(paid_clicks),0) as clicks_as_column FROM ad_event_view "
    lid := "12"
    hid := "34"
    melted_group_by := "event_date"
    sample_melted_base_sql := "SELECT event_date as Date, COALESCE(sum(paid_clicks),0) as Clicks FROM ad_event_view " }

/-! ## Sanity anchors for the embedding -/

example : sql_statement_generator "date, clicks" "12~34" = .ok sampleSqlElements := rfl

example : spaceFields "0 4 * * 1" = ["0", "4", "*", "*", "1"] := by decide

/-! ## Claim theorems -/

set_option maxRecDepth 8192 in
/-- **C1** (code bug).  The spec requires that an unparsed timespan
(`discover_timespan` returning `None`) halt job assembly with no job
document produced or written.  The code instead routes `None` through
the `else` arm of the dispatch in `generate_json_and_sample` into
`assemble_default_dag_json`, which interpolates it as the literal text
`None`; step 7 then writes the document unconditionally.  Evaluated
here at a concrete unparsed ticket: the timespan text `"whenever"`
resolves to `None`, yet the dispatch yields a job document whose
written form still contains the `adnet_Acme_com_None_` attachment
name. -/
theorem C1_unparsed_timespan_still_writes_job :
    discover_timespan ⟨2026, 10, 12⟩ ["whenever"] = TsVal.pyNone ∧
    ∃ doc,
      assembleDagJsonFor "email" "person@example.com" "Acme_com" TsVal.pyNone
          "0 4 * * 1" sampleSqlElements = Except.ok doc ∧
      strContains (export_json_text doc) "adnet_Acme_com_None_" = true :=
  ⟨rfl, _, rfl, rfl⟩

/-- **C2** (code bug).  The spec's extraction pattern (a) is supposed to
strip a `- description` annotation, so that `"CPC - cost per click"`
resolves to the guarded division expression for `cpc`.  In the source
regex `^(.*?)(?:\s*-\s*|\s*=\s*(.*))?$` the dash alternative captures
nothing and is immediately followed by the anchor, so it only matches a
trailing dash; on `"cpc - cost per click"` the whole token becomes the
field name, the mapping lookup misses, and the expression is null.  The
`=` form, whose alternative does capture, behaves as the spec
describes — evidence that the dash branch is a slipped regex rather
than intended behavior. -/
theorem C2_dash_annotation_not_stripped :
    (mkColRow "cpc - cost per click").main_text = "cpc - cost per click" ∧
    (mkColRow "cpc - cost per click").selects_for_sql = none ∧
    generate_selects "cpc" =
      some "CASE WHEN isNaN(round(sum(revenue)/sum(paid_clicks),2)) THEN 0 ELSE round(sum(revenue)/sum(paid_clicks),2) END" ∧
    (mkColRow "cpc = cost per click").main_text = "cpc" ∧
    (mkColRow "cpc = cost per click").selects_for_sql =
      some "CASE WHEN isNaN(round(sum(revenue)/sum(paid_clicks),2)) THEN 0 ELSE round(sum(revenue)/sum(paid_clicks),2) END" :=
  ⟨rfl, rfl, rfl, rfl, rfl⟩

/-- **C4** (code bug).  The spec says the Schedule Interpreter extracts
the hour with its am/pm marker (`"10:30 am"` → hour 10).  The source
pattern `(\d+):?(?:\d{{2}})?\s*(am|pm)` is a plain string, not an
f-string, so `{{2}}` is literal brace text and the optional group can
never match a minutes field; on `"10:30 am"` the search therefore lands
on the minutes and extracts 30 as the hour, giving cron hour
`30 % 24 = 6` instead of 10. -/
theorem C4_ampm_hour_regex_grabs_minutes :
    ampmSearch "10:30 am".data = some (30, "am") ∧
    discover_cron ["10:30 am"] = some "30 6 * * 1" :=
  ⟨rfl, rfl⟩

/-- **C9** (confirmed).  `"publisher name"`, `"pub name"` and
`"publisher"` all map to `affiliate_account_name`, which contains the
substring `count`; the case-insensitive aggregate-keyword test
therefore classifies these plain dimension columns as aggregates, and
the generated GROUP BY list for them is empty. -/
theorem C9_publisher_columns_misclassified_as_aggregates :
    generate_selects "publisher name" = some "affiliate_account_name" ∧
    generate_selects "pub name" = some "affiliate_account_name" ∧
    generate_selects "publisher" = some "affiliate_account_name" ∧
    strContains (pyLower "affiliate_account_name") "count" = true ∧
    isAggRow (mkColRow "publisher name") = true ∧
    isAggRow (mkColRow "pub name") = true ∧
    isAggRow (mkColRow "publisher") = true ∧
    meltedGroupBy "publisher name, pub name, publisher" = "" :=
  ⟨rfl, rfl, rfl, rfl, rfl, rfl, rfl, rfl⟩

/-- **C3** (counterexample).  The claim says classification is Daily
exactly when the day-of-week field is `*`, regardless of the
day-of-month and month fields.  On `"0 3 1 * *"` the day-of-week field
is `*`, yet the whitespace-stripped string `031**` does not end in
`***`, so the code classifies Monthly, not Daily. -/
theorem C3_counterexample_dom_field_matters :
    (spaceFields "0 3 1 * *").get? 4 = some "*" ∧
    timedelta_calculator "0 3 1 * *" = Except.ok ("Monthly", 0, 0) :=
  ⟨rfl, rfl⟩

/-- **C7** (counterexample).  The claim says every non-unparsed
resolver result is a positive day-count, a valid calendar date, or an
MTD/YTD marker.  The `present` branch does not validate its extracted
`MM/DD`: `"Present 13/45"` yields the date string `2026-13-45`, which
is no calendar date; and the fallback branch accepts `"Last 0 Days"`,
yielding the non-positive day-count 0. -/
theorem C7_counterexample_invalid_date_and_zero_days :
    discover_timespan ⟨2026, 10, 12⟩ ["Present 13/45"] = TsVal.str "2026-13-45" ∧
    validYMD 2026 13 45 = false ∧
    discover_timespan ⟨2026, 10, 12⟩ ["Last 0 Days"] = TsVal.int 0 :=
  ⟨rfl, rfl, rfl⟩

/-- **C10** (confirmed).  Each of the three job assemblers is a pure
function of the delivery method, recipients, advertiser name, timespan
value, cron string and SQL elements — the embedding needed no clock,
counter or other ambient state, and no generation timestamp is
interpolated into the templates — so two runs on identical inputs
produce byte-identical job documents. -/
theorem C10_assembly_idempotent
    (d r a : String) (n : Int) (sd : String) (ts : TsVal) (c : String) (q : SqlElements)
    (d' r' a' : String) (n' : Int) (sd' : String) (ts' : TsVal) (c' : String) (q' : SqlElements)
    (hd : d = d') (hr : r = r') (ha : a = a') (hn : n = n')
    (hs : sd = sd') (ht : ts = ts') (hc : c = c') (hq : q = q') :
    assemble_int_dag_json d r a n c q = assemble_int_dag_json d' r' a' n' c' q' ∧
    assemble_str_dag_json d r a sd c q = assemble_str_dag_json d' r' a' sd' c' q' ∧
    assemble_default_dag_json d r a ts c q = assemble_default_dag_json d' r' a' ts' c' q' := by
  subst hd hr ha hn hs ht hc hq
  exact ⟨rfl, rfl, rfl⟩

/-- Witness for C10 at concrete inputs. -/
theorem C10_assembly_idempotent_witness :
    (("email" : String) = "email" ∧ ("p@e.com" : String) = "p@e.com" ∧
     ("Acme_com" : String) = "Acme_com" ∧ (7 : Int) = 7 ∧
     ("2025-01-15" : String) = "2025-01-15" ∧ TsVal.pyNone = TsVal.pyNone ∧
     ("0 4 * * *" : String) = "0 4 * * *" ∧ sampleSqlElements = sampleSqlElements) ∧
    (assemble_int_dag_json "email" "p@e.com" "Acme_com" 7 "0 4 * * *" sampleSqlElements =
       assemble_int_dag_json "email" "p@e.com" "Acme_com" 7 "0 4 * * *" sampleSqlElements ∧
     assemble_str_dag_json "email" "p@e.com" "Acme_com" "2025-01-15" "0 4 * * *" sampleSqlElements =
       assemble_str_dag_json "email" "p@e.com" "Acme_com" "2025-01-15" "0 4 * * *" sampleSqlElements ∧
     assemble_default_dag_json "email" "p@e.com" "Acme_com" TsVal.pyNone "0 4 * * *" sampleSqlElements =
       assemble_default_dag_json "email" "p@e.com" "Acme_com" TsVal.pyNone "0 4 * * *" sampleSqlElements) :=
  ⟨⟨rfl, rfl, rfl, rfl, rfl, rfl, rfl, rfl⟩,
   C10_assembly_idempotent "email" "p@e.com" "Acme_com" 7 "2025-01-15" TsVal.pyNone
     "0 4 * * *" sampleSqlElements "email" "p@e.com" "Acme_com" 7 "2025-01-15" TsVal.pyNone
     "0 4 * * *" sampleSqlElements rfl rfl rfl rfl rfl rfl rfl rfl⟩

/-! ## Digit and numeral lemmas -/

theorem isDigitChar_digitChar {d : Nat} (h : d < 10) : isDigitChar (digitChar d) = true := by
  interval_cases d <;> decide

theorem cv_digitChar {d : Nat} (h : d < 10) : cv (digitChar d) = d := by
  interval_cases d <;> decide

theorem natDigitsAux_all (fuel n : Nat) : ∀ c ∈ natDigitsAux fuel n, isDigitChar c = true := by
  induction fuel generalizing n with
  | zero => intro c hc; simp [natDigitsAux] at hc
  | succ f ih =>
    intro c hc
    rw [natDigitsAux] at hc
    by_cases h : n < 10
    · rw [if_pos h] at hc
      simp only [List.mem_singleton] at hc
      subst hc
      exact isDigitChar_digitChar h
    · rw [if_neg h] at hc
      simp only [List.mem_append, List.mem_singleton] at hc
      rcases hc with hc | hc
      · exact ih _ c hc
      · subst hc
        exact isDigitChar_digitChar (Nat.mod_lt _ (by norm_num))

theorem natDigits_all {n : Nat} : ∀ c ∈ natDigits n, isDigitChar c = true :=
  natDigitsAux_all _ n

theorem natDigits_ne_nil (n : Nat) : natDigits n ≠ [] := by
  rw [natDigits, natDigitsAux]
  by_cases h : n < 10
  · rw [if_pos h]; simp
  · rw [if_neg h]; simp

theorem isDigitChar_ne {c x : Char} (hc : isDigitChar c = true)
    (hx : isDigitChar x = false) : c ≠ x := by
  intro h
  subst h
  rw [hx] at hc
  cases hc

theorem isDigitChar_bounds {c : Char} (hc : isDigitChar c = true) :
    48 ≤ c.toNat ∧ c.toNat ≤ 57 := by
  simp only [isDigitChar, Bool.and_eq_true, decide_eq_true_eq] at hc
  exact hc

theorem cv_le_nine {c : Char} (hc : isDigitChar c = true) : cv c ≤ 9 := by
  have := isDigitChar_bounds hc
  simp only [cv]
  omega

theorem isDigitChar_not_pySpace {c : Char} (hc : isDigitChar c = true) :
    isPySpace c = false := by
  rcases Bool.eq_false_or_eq_true (isPySpace c) with h | h
  · exfalso
    simp only [isPySpace, Bool.or_eq_true, decide_eq_true_eq] at h
    rcases h with ((((h | h) | h) | h) | h) | h <;> subst h <;>
      exact absurd hc (by decide)
  · exact h

theorem isDigitChar_ne_space {c : Char} (hc : isDigitChar c = true) : c ≠ ' ' :=
  isDigitChar_ne hc (by decide)

theorem isDigitChar_ne_star {c : Char} (hc : isDigitChar c = true) : c ≠ '*' :=
  isDigitChar_ne hc (by decide)

theorem star_beq_eq_false {c : Char} (hc : isDigitChar c = true) :
    (('*' : Char) == c) = false := by
  rcases Bool.eq_false_or_eq_true (('*' : Char) == c) with h | h
  · rw [beq_iff_eq] at h
    subst h
    exact absurd hc (by decide)
  · exact h

theorem digitsVal_append (X : List Char) (c : Char) :
    digitsVal (X ++ [c]) = 10 * digitsVal X + cv c := by
  rw [digitsVal, List.foldl_append]
  rfl

theorem digitsVal_natDigitsAux :
    ∀ fuel n, n < 10 ^ fuel → digitsVal (natDigitsAux fuel n) = n := by
  intro fuel
  induction fuel with
  | zero =>
    intro n h
    have hn : n = 0 := by simpa using h
    subst hn
    rfl
  | succ f ih =>
    intro n h
    rw [natDigitsAux]
    by_cases h10 : n < 10
    · rw [if_pos h10]
      simp [digitsVal, List.foldl, cv_digitChar h10]
    · rw [if_neg h10]
      have hdiv : n / 10 < 10 ^ f := by
        rw [Nat.div_lt_iff_lt_mul (by norm_num)]
        calc n < 10 ^ (f + 1) := h
        _ = 10 ^ f * 10 := by rw [pow_succ]
      rw [digitsVal_append, ih (n / 10) hdiv, cv_digitChar (Nat.mod_lt _ (by norm_num))]
      omega

theorem digitsVal_natDigits (n : Nat) : digitsVal (natDigits n) = n :=
  digitsVal_natDigitsAux _ n
    (calc n < 2 ^ n := Nat.lt_two_pow n
    _ ≤ 10 ^ n := Nat.pow_le_pow_left (by norm_num) n
    _ ≤ 10 ^ (n + 1) := Nat.pow_le_pow_right (by norm_num) (Nat.le_succ n))

theorem dropWhile_eq_self_of_all {α : Type} {p : α → Bool} {l : List α}
    (h : ∀ c ∈ l, p c = false) : l.dropWhile p = l := by
  cases l with
  | nil => rfl
  | cons c t =>
    rw [List.dropWhile_cons, h c (List.mem_cons_self _ _)]
    simp

theorem pyStrip_eq_self {l : List Char} (h : ∀ c ∈ l, isPySpace c = false) :
    pyStrip l = l := by
  rw [pyStrip, dropWhile_eq_self_of_all h,
      dropWhile_eq_self_of_all (fun c hc => h c (List.mem_reverse.mp hc)),
      List.reverse_reverse]

theorem natDigits_no_space (n : Nat) : ∀ c ∈ natDigits n, isPySpace c = false :=
  fun c hc => isDigitChar_not_pySpace (natDigits_all c hc)

theorem pyInt_natDigits (n : Nat) : pyInt (natDigits n) = some ((n : Nat) : Int) := by
  obtain ⟨c, r, hcr⟩ := List.exists_cons_of_ne_nil (natDigits_ne_nil n)
  have hc : isDigitChar c = true := natDigits_all c (by rw [hcr]; exact List.mem_cons_self _ _)
  have hminus : c ≠ '-' := isDigitChar_ne hc (by decide)
  have hplus : c ≠ '+' := isDigitChar_ne hc (by decide)
  have hall : (c :: r).all isDigitChar = true := by
    rw [← hcr]
    exact List.all_eq_true.mpr natDigits_all
  rw [pyInt, pyStrip_eq_self (natDigits_no_space n), hcr, pyIntCore,
      if_neg hminus, if_neg hplus, if_pos hall, ← hcr, digitsVal_natDigits]

theorem pyIsDigitStr_natDigits (n : Nat) : pyIsDigitStr (natDigits n) = true := by
  rw [pyIsDigitStr]
  obtain ⟨c, r, hcr⟩ := List.exists_cons_of_ne_nil (natDigits_ne_nil n)
  rw [hcr]
  simp only [List.isEmpty_cons, Bool.not_false, Bool.true_and]
  rw [← hcr]
  exact List.all_eq_true.mpr natDigits_all

/-! ## String and splitter lemmas -/

theorem data_append (a b : String) : (a ++ b).data = a.data ++ b.data := by
  cases a
  cases b
  rfl

theorem string_ne_empty_of_data {s : String} (h : s.data ≠ []) : s ≠ "" := by
  intro he
  subst he
  exact h rfl

theorem splitChAux_nonsep {sep : Char} {A : List Char} (h : ∀ c ∈ A, c ≠ sep) :
    ∀ rest acc, splitChAux sep (A ++ rest) acc = splitChAux sep rest (A.reverse ++ acc) := by
  induction A with
  | nil => intro rest acc; simp
  | cons c t ih =>
    intro rest acc
    have hc : c ≠ sep := h c (List.mem_cons_self _ _)
    rw [List.cons_append, splitChAux, if_neg hc,
        ih (fun x hx => h x (List.mem_cons_of_mem _ hx)) rest (c :: acc)]
    simp

theorem splitChAux_sep (sep : Char) (rest acc : List Char) :
    splitChAux sep (sep :: rest) acc = String.mk acc.reverse :: splitChAux sep rest [] := by
  rw [splitChAux, if_pos rfl]

theorem splitChAux_last {sep : Char} {E : List Char} (h : ∀ c ∈ E, c ≠ sep) (acc : List Char) :
    splitChAux sep E acc = [String.mk (acc.reverse ++ E)] := by
  calc splitChAux sep E acc = splitChAux sep (E ++ []) acc := by rw [List.append_nil]
  _ = splitChAux sep [] (E.reverse ++ acc) := splitChAux_nonsep h [] acc
  _ = [String.mk (E.reverse ++ acc).reverse] := rfl
  _ = [String.mk (acc.reverse ++ E)] := by simp

/-- Five space-separated fields, none containing a space. -/
theorem splitCh_five {A B C D E : List Char}
    (hA : ∀ c ∈ A, c ≠ ' ') (hB : ∀ c ∈ B, c ≠ ' ') (hC : ∀ c ∈ C, c ≠ ' ')
    (hD : ∀ c ∈ D, c ≠ ' ') (hE : ∀ c ∈ E, c ≠ ' ') :
    splitCh ' ' (A ++ ' ' :: (B ++ ' ' :: (C ++ ' ' :: (D ++ ' ' :: E)))) =
      [String.mk A, String.mk B, String.mk C, String.mk D, String.mk E] := by
  rw [splitCh, splitChAux_nonsep hA, splitChAux_sep, splitChAux_nonsep hB, splitChAux_sep,
      splitChAux_nonsep hC, splitChAux_sep, splitChAux_nonsep hD, splitChAux_sep,
      splitChAux_last hE]
  simp

theorem wsSplitAux_nonspace {A : List Char} (h : ∀ c ∈ A, isPySpace c = false) :
    ∀ rest acc, wsSplitAux (A ++ rest) acc = wsSplitAux rest (A.reverse ++ acc) := by
  induction A with
  | nil => intro rest acc; simp
  | cons c t ih =>
    intro rest acc
    have hc : isPySpace c = false := h c (List.mem_cons_self _ _)
    rw [List.cons_append, wsSplitAux.eq_def]
    simp only [hc, Bool.false_eq_true, if_false]
    rw [ih (fun x hx => h x (List.mem_cons_of_mem _ hx)) rest (c :: acc)]
    simp

theorem wsSplitAux_space {rest acc : List Char} (h : acc ≠ []) :
    wsSplitAux (' ' :: rest) acc = acc.reverse :: wsSplitAux rest [] := by
  obtain ⟨a, t, rfl⟩ := List.exists_cons_of_ne_nil h
  rw [wsSplitAux.eq_def]
  simp [isPySpace]

theorem wsSplitAux_final {E : List Char} (hE : ∀ c ∈ E, isPySpace c = false)
    {acc : List Char} (h : E.reverse ++ acc ≠ []) :
    wsSplitAux E acc = [acc.reverse ++ E] := by
  calc wsSplitAux E acc = wsSplitAux (E ++ []) acc := by rw [List.append_nil]
  _ = wsSplitAux [] (E.reverse ++ acc) := wsSplitAux_nonspace hE [] acc
  _ = [acc.reverse ++ E] := by
      rw [wsSplitAux.eq_def]
      obtain ⟨a, t, hat⟩ := List.exists_cons_of_ne_nil h
      rw [hat]
      simp only [List.isEmpty_cons, Bool.false_eq_true, if_false]
      rw [← hat]
      simp

/-- `cron.split()` on a five-field cron built from nonempty whitespace-free
fields. -/
theorem wsSplit_five {A B C D E : List Char}
    (hA : ∀ c ∈ A, isPySpace c = false) (hB : ∀ c ∈ B, isPySpace c = false)
    (hC : ∀ c ∈ C, isPySpace c = false) (hD : ∀ c ∈ D, isPySpace c = false)
    (hE : ∀ c ∈ E, isPySpace c = false)
    (hAne : A ≠ []) (hBne : B ≠ []) (hCne : C ≠ []) (hDne : D ≠ []) (hEne : E ≠ []) :
    wsSplit (A ++ ' ' :: (B ++ ' ' :: (C ++ ' ' :: (D ++ ' ' :: E)))) =
      [A, B, C, D, E] := by
  have rev_ne : ∀ (X : List Char), X ≠ [] → ∀ (acc : List Char), X.reverse ++ acc ≠ [] := by
    intro X hX acc hcon
    rcases List.append_eq_nil.mp hcon with ⟨h1, _⟩
    exact hX (by simpa using h1)
  rw [wsSplit, wsSplitAux_nonspace hA, wsSplitAux_space (rev_ne A hAne []),
      wsSplitAux_nonspace hB, wsSplitAux_space (rev_ne B hBne []),
      wsSplitAux_nonspace hC, wsSplitAux_space (rev_ne C hCne []),
      wsSplitAux_nonspace hD, wsSplitAux_space (rev_ne D hDne []),
      wsSplitAux_final hE (rev_ne E hEne [])]
  simp

theorem filter_nonspace {A : List Char} (h : ∀ c ∈ A, isPySpace c = false) :
    A.filter (fun c => !isPySpace c) = A :=
  List.filter_eq_self.mpr (fun a ha => by rw [h a ha]; rfl)

theorem isPrefixOf_self_append {α : Type} [BEq α] [LawfulBEq α] (l t : List α) :
    l.isPrefixOf (l ++ t) = true := by
  induction l with
  | nil => simp [List.isPrefixOf]
  | cons c r ih => simp [List.isPrefixOf, ih]

theorem pyEndsWith_append_self (L S : List Char) :
    pyEndsWith (L ++ S) S = true := by
  rw [pyEndsWith, List.reverse_append]
  exact isPrefixOf_self_append _ _

theorem pyEndsWith_threeStars_digit {L : List Char} {c : Char} (hc : isDigitChar c = true) :
    pyEndsWith (L ++ [c]) threeStars = false := by
  rw [pyEndsWith, List.reverse_append]
  simp [threeStars, List.isPrefixOf, star_beq_eq_false hc]

theorem getLast?_append_singleton {α : Type} (L : List α) (d : α) :
    (L ++ [d]).getLast? = some d := by
  simp [List.getLast?_append]

/-! ## Cron-shape computations for the lag calculator -/

theorem data_daily (m h : Nat) :
    (natRepr m ++ " " ++ natRepr h ++ " * * *").data =
      ((natDigits m ++ [' ']) ++ natDigits h) ++ [' ', '*', ' ', '*', ' ', '*'] := by
  rw [data_append, data_append, data_append]
  rfl

theorem data_weekly (m h w : Nat) :
    (natRepr m ++ " " ++ natRepr h ++ " * * " ++ natRepr w).data =
      (((natDigits m ++ [' ']) ++ natDigits h) ++ [' ', '*', ' ', '*', ' ']) ++ natDigits w := by
  rw [data_append, data_append, data_append, data_append]
  rfl

theorem wsSplit_daily (m h : Nat) :
    wsSplit ((natRepr m ++ " " ++ natRepr h ++ " * * *").data) =
      [natDigits m, natDigits h, ['*'], ['*'], ['*']] := by
  rw [data_daily]
  have h5 := wsSplit_five (A := natDigits m) (B := natDigits h)
    (C := ['*']) (D := ['*']) (E := ['*'])
    (natDigits_no_space m) (natDigits_no_space h)
    (by decide) (by decide) (by decide)
    (natDigits_ne_nil m) (natDigits_ne_nil h)
    (by decide) (by decide) (by decide)
  rw [← h5]
  congr 1
  simp

theorem wsSplit_weekly (m h w : Nat) :
    wsSplit ((natRepr m ++ " " ++ natRepr h ++ " * * " ++ natRepr w).data) =
      [natDigits m, natDigits h, ['*'], ['*'], natDigits w] := by
  rw [data_weekly]
  have h5 := wsSplit_five (A := natDigits m) (B := natDigits h)
    (C := ['*']) (D := ['*']) (E := natDigits w)
    (natDigits_no_space m) (natDigits_no_space h)
    (by decide) (by decide) (natDigits_no_space w)
    (natDigits_ne_nil m) (natDigits_ne_nil h)
    (by decide) (by decide) (natDigits_ne_nil w)
  rw [← h5]
  congr 1
  simp

theorem trimmed_daily (m h : Nat) :
    ((natRepr m ++ " " ++ natRepr h ++ " * * *").data).filter (fun c => !isPySpace c) =
      (natDigits m ++ natDigits h) ++ threeStars := by
  rw [data_daily, List.filter_append, List.filter_append, List.filter_append,
      filter_nonspace (natDigits_no_space m), filter_nonspace (natDigits_no_space h)]
  have h1 : List.filter (fun c => !isPySpace c) [' '] = [] := by decide
  have h2 : List.filter (fun c => !isPySpace c) [' ', '*', ' ', '*', ' ', '*'] = threeStars := by
    decide
  rw [h1, h2]
  simp

theorem trimmed_weekly (m h w : Nat) :
    ((natRepr m ++ " " ++ natRepr h ++ " * * " ++ natRepr w).data).filter (fun c => !isPySpace c) =
      ((natDigits m ++ natDigits h) ++ ['*', '*']) ++ natDigits w := by
  rw [data_weekly, List.filter_append, List.filter_append, List.filter_append,
      List.filter_append, filter_nonspace (natDigits_no_space m),
      filter_nonspace (natDigits_no_space h), filter_nonspace (natDigits_no_space w)]
  have h1 : List.filter (fun c => !isPySpace c) [' '] = [] := by decide
  have h2 : List.filter (fun c => !isPySpace c) [' ', '*', ' ', '*', ' '] = ['*', '*'] := by
    decide
  rw [h1, h2]
  simp

/-- Evaluation of the lag calculator on a daily cron `M H * * *`. -/
theorem tdcalc_daily (M H : Nat) :
    timedelta_calculator (natRepr M ++ " " ++ natRepr H ++ " * * *") =
      Except.ok ("Daily", (H : Int) - 3, (M : Int)) := by
  have hne : (natRepr M ++ " " ++ natRepr H ++ " * * *") ≠ "" := by
    apply string_ne_empty_of_data
    rw [data_daily]
    simp
  rw [timedelta_calculator, if_neg hne, trimmed_daily, pyEndsWith_append_self]
  rw [if_pos rfl, wsSplit_daily, tdDaily]
  have hlen : ([natDigits M, natDigits H, ['*'], ['*'], ['*']] : List (List Char)).length ≥ 2 := by
    simp
  rw [if_pos hlen]
  have hget : ([natDigits M, natDigits H, ['*'], ['*'], ['*']] : List (List Char)).get? 1 =
      some (natDigits H) := rfl
  have hmin : tdMinute [natDigits M, natDigits H, ['*'], ['*'], ['*']] = (M : Int) := by
    rw [tdMinute]
    have hg0 : (([natDigits M, natDigits H, ['*'], ['*'], ['*']] :
        List (List Char)).get? 0).getD [] = natDigits M := rfl
    rw [hg0, if_pos (pyIsDigitStr_natDigits M), digitsVal_natDigits]
  rw [hget]
  simp only [pyInt_natDigits, hmin, standardStartTime]

theorem tdcalc_weekly (M H w : Nat) :
    timedelta_calculator (natRepr M ++ " " ++ natRepr H ++ " * * " ++ natRepr w) =
      Except.ok ("Weekly", -(((w : Int)) * 24 - ((H : Int) - 3)), (M : Int)) := by
  obtain ⟨L, d, hW⟩ : ∃ L d, natDigits w = L ++ [d] := by
    rcases List.eq_nil_or_concat (natDigits w) with h | ⟨L, d, h⟩
    · exact absurd h (natDigits_ne_nil w)
    · exact ⟨L, d, by rw [h, List.concat_eq_append]⟩
  have hd : isDigitChar d = true :=
    natDigits_all (n := w) d (by rw [hW]; simp)
  have hne : (natRepr M ++ " " ++ natRepr H ++ " * * " ++ natRepr w) ≠ "" := by
    apply string_ne_empty_of_data
    rw [data_weekly]
    simp
  rw [timedelta_calculator, if_neg hne, trimmed_weekly]
  have hends : pyEndsWith (((natDigits M ++ natDigits H) ++ ['*', '*']) ++ natDigits w)
      threeStars = false := by
    rw [hW, ← List.append_assoc]
    exact pyEndsWith_threeStars_digit hd
  rw [hends]
  simp only [Bool.false_eq_true, if_false]
  have hlast : ((((natDigits M ++ natDigits H) ++ ['*', '*']) ++ natDigits w)).getLast? =
      some d := by
    rw [hW, ← List.append_assoc]
    exact getLast?_append_singleton _ d
  rw [hlast]
  have hdstar : d ≠ '*' := isDigitChar_ne_star hd
  simp only [ne_eq, hdstar, not_false_eq_true, if_true]
  rw [wsSplit_weekly, tdWeekly]
  have hlast5 : ([natDigits M, natDigits H, ['*'], ['*'], natDigits w] :
      List (List Char)).getLast? = some (natDigits w) := by
    simp [List.getLast?]
  rw [hlast5]
  have hget : ([natDigits M, natDigits H, ['*'], ['*'], natDigits w] :
      List (List Char)).get? 1 = some (natDigits H) := rfl
  have hmin : tdMinute [natDigits M, natDigits H, ['*'], ['*'], natDigits w] = (M : Int) := by
    rw [tdMinute]
    have hg0 : (([natDigits M, natDigits H, ['*'], ['*'], natDigits w] :
        List (List Char)).get? 0).getD [] = natDigits M := rfl
    rw [hg0, if_pos (pyIsDigitStr_natDigits M), digitsVal_natDigits]
  simp only [pyIsDigitStr_natDigits w, if_true, hget, pyInt_natDigits, hmin,
    digitsVal_natDigits, standardStartTime]

/-- **C6** (confirmed).  The Lag Calculator round-trip: a daily cron
`M H * * *` yields `["Daily", H − 3, M]`, and a weekly cron
`M H * * w` with `w ∈ [0, 6]` yields
`["Weekly", −((w·24) − (H − 3)), M]`, exactly as the spec's formula
says. -/
theorem C6_lag_round_trip (M H w : Nat) (hH : H < 24) (hw : w ≤ 6) :
    timedelta_calculator (natRepr M ++ " " ++ natRepr H ++ " * * *") =
      Except.ok ("Daily", (H : Int) - 3, (M : Int)) ∧
    timedelta_calculator (natRepr M ++ " " ++ natRepr H ++ " * * " ++ natRepr w) =
      Except.ok ("Weekly", -(((w : Int)) * 24 - ((H : Int) - 3)), (M : Int)) :=
  ⟨tdcalc_daily M H, tdcalc_weekly M H w⟩

/-! ## Lag-calculator classification over well-formed cron fields (C3) -/

theorem str_eq_of_data {s t : String} (h : s.data = t.data) : s = t := by
  cases s
  cases t
  exact congrArg String.mk (by simpa using h)

theorem starOrDigits_cases {f : String} (h : starOrDigits f) :
    f.data = ['*'] ∨ (f.data ≠ [] ∧ ∀ c ∈ f.data, isDigitChar c = true) := by
  rcases h with h | ⟨h1, h2⟩
  · left
    rw [h]
  · right
    exact ⟨h1, List.all_eq_true.mp h2⟩

theorem starOrDigits_no_space {f : String} (h : starOrDigits f) :
    ∀ c ∈ f.data, isPySpace c = false := by
  rcases starOrDigits_cases h with h | ⟨_, h2⟩
  · rw [h]
    intro c hc
    rw [List.mem_singleton] at hc
    subst hc
    decide
  · exact fun c hc => isDigitChar_not_pySpace (h2 c hc)

theorem starOrDigits_ne_nil {f : String} (h : starOrDigits f) : f.data ≠ [] := by
  rcases starOrDigits_cases h with h | ⟨h1, _⟩
  · rw [h]
    simp
  · exact h1

theorem digits_ne_star {f : String} (hne : f.data ≠ [])
    (hall : ∀ c ∈ f.data, isDigitChar c = true) : f ≠ "*" := by
  intro he
  subst he
  have h := hall '*' (by rw [show ("*" : String).data = ['*'] from rfl]; exact List.mem_singleton.mpr rfl)
  exact absurd h (by decide)

theorem data_five (m h : Nat) (f3 f4 f5 : String) :
    (natRepr m ++ " " ++ natRepr h ++ " " ++ f3 ++ " " ++ f4 ++ " " ++ f5).data =
      ((((((((natDigits m ++ [' ']) ++ natDigits h) ++ [' ']) ++ f3.data) ++ [' '])
        ++ f4.data) ++ [' ']) ++ f5.data) := by
  rw [data_append, data_append, data_append, data_append, data_append, data_append,
      data_append, data_append]
  rfl

theorem trimmed_five (m h : Nat) {f3 f4 f5 : String}
    (h3 : starOrDigits f3) (h4 : starOrDigits f4) (h5 : starOrDigits f5) :
    ((natRepr m ++ " " ++ natRepr h ++ " " ++ f3 ++ " " ++ f4 ++ " " ++ f5).data).filter
        (fun c => !isPySpace c) =
      (((natDigits m ++ natDigits h) ++ f3.data) ++ f4.data) ++ f5.data := by
  have hm := filter_nonspace (natDigits_no_space m)
  have hh := filter_nonspace (natDigits_no_space h)
  have hf3 := filter_nonspace (starOrDigits_no_space h3)
  have hf4 := filter_nonspace (starOrDigits_no_space h4)
  have hf5 := filter_nonspace (starOrDigits_no_space h5)
  have hsp : List.filter (fun c => !isPySpace c) [' '] = [] := by decide
  rw [data_five]
  simp only [List.filter_append, hm, hh, hf3, hf4, hf5, hsp]
  simp

theorem wsSplit_five_str (m h : Nat) {f3 f4 f5 : String}
    (h3 : starOrDigits f3) (h4 : starOrDigits f4) (h5 : starOrDigits f5) :
    wsSplit ((natRepr m ++ " " ++ natRepr h ++ " " ++ f3 ++ " " ++ f4 ++ " " ++ f5).data) =
      [natDigits m, natDigits h, f3.data, f4.data, f5.data] := by
  rw [data_five]
  have hs := wsSplit_five (A := natDigits m) (B := natDigits h)
    (C := f3.data) (D := f4.data) (E := f5.data)
    (natDigits_no_space m) (natDigits_no_space h)
    (starOrDigits_no_space h3) (starOrDigits_no_space h4) (starOrDigits_no_space h5)
    (natDigits_ne_nil m) (natDigits_ne_nil h)
    (starOrDigits_ne_nil h3) (starOrDigits_ne_nil h4) (starOrDigits_ne_nil h5)
  rw [← hs]
  congr 1
  simp

theorem pyEndsWith_digit_then_star {L : List Char} {c : Char} (hc : isDigitChar c = true) :
    pyEndsWith ((L ++ [c]) ++ ['*']) threeStars = false := by
  rw [pyEndsWith]
  simp [List.reverse_append, threeStars, List.isPrefixOf, star_beq_eq_false hc]

theorem pyEndsWith_digit_star_star {L : List Char} {c : Char} (hc : isDigitChar c = true) :
    pyEndsWith (((L ++ [c]) ++ ['*']) ++ ['*']) threeStars = false := by
  rw [pyEndsWith]
  simp [List.reverse_append, threeStars, List.isPrefixOf, star_beq_eq_false hc]

theorem pyIsDigitStr_of {l : List Char} (hne : l ≠ [])
    (hall : ∀ c ∈ l, isDigitChar c = true) : pyIsDigitStr l = true := by
  rw [pyIsDigitStr]
  obtain ⟨c, r, rfl⟩ := List.exists_cons_of_ne_nil hne
  simp only [List.isEmpty_cons, Bool.not_false, Bool.true_and]
  exact List.all_eq_true.mpr hall

theorem concat_of_ne_nil {l : List Char} (h : l ≠ []) : ∃ L d, l = L ++ [d] := by
  rcases List.eq_nil_or_concat l with h' | ⟨L, d, h'⟩
  · exact absurd h' h
  · exact ⟨L, d, by rw [h', List.concat_eq_append]⟩

/-- **C3** (amended, proved).  On a five-field cron whose minute and hour
are numeric and whose last three fields are each `*` or numeric, the
classification is Daily exactly when day-of-month, month and
day-of-week are all `*` (the code tests the whole stripped string for
the suffix `***`), Monthly when day-of-week is `*` but the earlier two
are not both `*`, and Weekly exactly when the day-of-week field is not
`*`. -/
theorem C3_amended_classification (m h : Nat) (f3 f4 f5 : String)
    (h3 : starOrDigits f3) (h4 : starOrDigits f4) (h5 : starOrDigits f5) :
    ∃ dh dm : Int,
      timedelta_calculator
          (natRepr m ++ " " ++ natRepr h ++ " " ++ f3 ++ " " ++ f4 ++ " " ++ f5) =
        Except.ok
          ((if f3 = "*" ∧ f4 = "*" ∧ f5 = "*" then "Daily"
            else if f5 = "*" then "Monthly" else "Weekly"), dh, dm) := by
  have hne : (natRepr m ++ " " ++ natRepr h ++ " " ++ f3 ++ " " ++ f4 ++ " " ++ f5) ≠ "" := by
    apply string_ne_empty_of_data
    rw [data_five]
    simp [natDigits_ne_nil m]
  have hstar : ("*" : String).data = ['*'] := rfl
  rcases starOrDigits_cases h5 with hf5 | ⟨h5ne, h5all⟩
  · have hf5' : f5 = "*" := str_eq_of_data (by rw [hf5])
    subst hf5'
    rcases starOrDigits_cases h4 with hf4 | ⟨h4ne, h4all⟩
    · have hf4' : f4 = "*" := str_eq_of_data (by rw [hf4])
      subst hf4'
      rcases starOrDigits_cases h3 with hf3 | ⟨h3ne, h3all⟩
      · -- all three are `*`: Daily
        have hf3' : f3 = "*" := str_eq_of_data (by rw [hf3])
        subst hf3'
        refine ⟨(h : Int) - 3, (m : Int), ?_⟩
        rw [if_pos ⟨rfl, rfl, rfl⟩]
        have hs : (natRepr m ++ " " ++ natRepr h ++ " " ++ "*" ++ " " ++ "*" ++ " " ++ "*") =
            (natRepr m ++ " " ++ natRepr h ++ " * * *") := by
          apply str_eq_of_data
          rw [data_five, data_daily, hstar]
          simp
        rw [hs, tdcalc_daily]
      · -- f3 numeric, f4 = f5 = `*`: Monthly
        have hf3star : f3 ≠ "*" := digits_ne_star h3ne h3all
        refine ⟨0, 0, ?_⟩
        rw [if_neg (by rintro ⟨h1, -, -⟩; exact hf3star h1), if_pos rfl]
        rw [timedelta_calculator, if_neg hne, trimmed_five m h h3 h4 h5, hstar]
        obtain ⟨L, d, hL⟩ := concat_of_ne_nil h3ne
        have hd : isDigitChar d = true := h3all d (by rw [hL]; simp)
        have hends : pyEndsWith ((((natDigits m ++ natDigits h) ++ f3.data) ++ ['*']) ++ ['*'])
            threeStars = false := by
          rw [hL, ← List.append_assoc]
          exact pyEndsWith_digit_star_star hd
        rw [hends]
        simp only [Bool.false_eq_true, if_false]
        rw [getLast?_append_singleton]
        simp
    · -- f4 numeric, f5 = `*`: Monthly regardless of f3
      have hf4star : f4 ≠ "*" := digits_ne_star h4ne h4all
      refine ⟨0, 0, ?_⟩
      rw [if_neg (by rintro ⟨-, h1, -⟩; exact hf4star h1), if_pos rfl]
      rw [timedelta_calculator, if_neg hne, trimmed_five m h h3 h4 h5, hstar]
      obtain ⟨L, d, hL⟩ := concat_of_ne_nil h4ne
      have hd : isDigitChar d = true := h4all d (by rw [hL]; simp)
      have hends : pyEndsWith ((((natDigits m ++ natDigits h) ++ f3.data) ++ f4.data) ++ ['*'])
          threeStars = false := by
        rw [hL, ← List.append_assoc]
        exact pyEndsWith_digit_then_star hd
      rw [hends]
      simp only [Bool.false_eq_true, if_false]
      rw [getLast?_append_singleton]
      simp
  · -- f5 numeric: Weekly
    have hf5star : f5 ≠ "*" := digits_ne_star h5ne h5all
    refine ⟨-((digitsVal f5.data : Int) * 24 - ((h : Int) - 3)), (m : Int), ?_⟩
    rw [if_neg (by rintro ⟨-, -, h1⟩; exact hf5star h1), if_neg hf5star]
    rw [timedelta_calculator, if_neg hne, trimmed_five m h h3 h4 h5]
    obtain ⟨L, d, hL⟩ := concat_of_ne_nil h5ne
    have hd : isDigitChar d = true := h5all d (by rw [hL]; simp)
    have hends : pyEndsWith ((((natDigits m ++ natDigits h) ++ f3.data) ++ f4.data) ++ f5.data)
        threeStars = false := by
      rw [hL, ← List.append_assoc]
      exact pyEndsWith_threeStars_digit hd
    rw [hends]
    simp only [Bool.false_eq_true, if_false]
    have hlast : ((((natDigits m ++ natDigits h) ++ f3.data) ++ f4.data) ++ f5.data).getLast? =
        some d := by
      rw [hL, ← List.append_assoc]
      exact getLast?_append_singleton _ d
    rw [hlast]
    have hdstar : d ≠ '*' := isDigitChar_ne_star hd
    simp only [ne_eq, hdstar, not_false_eq_true, if_true]
    rw [wsSplit_five_str m h h3 h4 h5, tdWeekly]
    have hlast5 : ([natDigits m, natDigits h, f3.data, f4.data, f5.data] :
        List (List Char)).getLast? = some f5.data := by
      simp [List.getLast?]
    rw [hlast5]
    have hget : ([natDigits m, natDigits h, f3.data, f4.data, f5.data] :
        List (List Char)).get? 1 = some (natDigits h) := rfl
    have hmin : tdMinute [natDigits m, natDigits h, f3.data, f4.data, f5.data] = (m : Int) := by
      rw [tdMinute]
      have hg0 : (([natDigits m, natDigits h, f3.data, f4.data, f5.data] :
          List (List Char)).get? 0).getD [] = natDigits m := rfl
      rw [hg0, if_pos (pyIsDigitStr_natDigits m), digitsVal_natDigits]
    simp only [pyIsDigitStr_of h5ne h5all, if_true, hget, pyInt_natDigits, hmin,
      standardStartTime]

/-- Witness for the amended C3 at cron `0 3 * * 5`. -/
theorem C3_amended_classification_witness :
    (starOrDigits "*" ∧ starOrDigits "*" ∧ starOrDigits "5") ∧
    (∃ dh dm : Int,
      timedelta_calculator (natRepr 0 ++ " " ++ natRepr 3 ++ " " ++ "*" ++ " " ++ "*" ++ " " ++ "5") =
        Except.ok
          ((if ("*" : String) = "*" ∧ ("*" : String) = "*" ∧ ("5" : String) = "*" then "Daily"
            else if ("5" : String) = "*" then "Monthly" else "Weekly"), dh, dm)) :=
  ⟨⟨Or.inl rfl, Or.inl rfl, Or.inr ⟨by decide, by decide⟩⟩,
   C3_amended_classification 0 3 "*" "*" "5" (Or.inl rfl) (Or.inl rfl)
     (Or.inr ⟨by decide, by decide⟩)⟩

/-! ## Timespan-resolver result shapes (C7) -/

theorem grab12_le {l : List Char} {d : Nat} (h : grab12 l = some d) : d ≤ 99 := by
  match l with
  | [] => simp [grab12] at h
  | [c1] =>
    rw [grab12] at h
    by_cases hc : isDigitChar c1 = true
    · rw [if_pos hc] at h
      cases h
      have := cv_le_nine hc
      omega
    · rw [if_neg hc] at h
      cases h
  | c1 :: c2 :: t =>
    rw [grab12] at h
    by_cases hc : isDigitChar c1 = true
    · rw [if_pos hc] at h
      cases h
      have h1 := cv_le_nine hc
      by_cases hc2 : isDigitChar c2 = true
      · rw [if_pos hc2]
        have h2 := cv_le_nine hc2
        omega
      · rw [if_neg hc2]
        omega
    · rw [if_neg hc] at h
      cases h

theorem mmddAt_le {l : List Char} {mo dy : Nat} (h : mmddAt l = some (mo, dy)) :
    mo ≤ 99 ∧ dy ≤ 99 := by
  rw [mmddAt.eq_def] at h
  split at h
  · -- `c1 :: '/' :: r`
    rename_i c1 r
    split_ifs at h with hc
    split at h
    · rename_i d hg
      injection h with h'
      cases h'
      exact ⟨by have := cv_le_nine hc; omega, grab12_le hg⟩
    · cases h
  · -- `c1 :: c2 :: '/' :: r`
    rename_i c1 c2 r
    split_ifs at h with hc
    rcases Bool.and_eq_true_iff.mp hc with ⟨hc1, hc2⟩
    split at h
    · rename_i d hg
      injection h with h'
      cases h'
      have h1 := cv_le_nine hc1
      have h2 := cv_le_nine hc2
      exact ⟨by omega, grab12_le hg⟩
    · cases h
  · cases h

theorem searchMMDD_le {l : List Char} {mo dy : Nat} (h : searchMMDD l = some (mo, dy)) :
    mo ≤ 99 ∧ dy ≤ 99 := by
  induction l with
  | nil => simp [searchMMDD] at h
  | cons c t ih =>
    rw [searchMMDD] at h
    rcases hm : mmddAt (c :: t) with _ | p
    · rw [hm] at h
      exact ih h
    · rw [hm] at h
      cases h
      exact mmddAt_le hm

theorem mkOngoing_shape (y mo dy : Nat) :
    mkOngoing y mo dy = TsVal.pyNone ∨
      (mkOngoing y mo dy = TsVal.str (strfDate y mo dy) ∧ validYMD y mo dy = true) := by
  rw [mkOngoing]
  by_cases hv : validYMD y mo dy = true
  · right
    rw [if_pos hv]
    exact ⟨rfl, hv⟩
  · left
    rw [if_neg hv]

theorem ongoingResult_shape (today : PyDate) (ns : List Nat) :
    ongoingResult today ns = TsVal.pyNone ∨
      ∃ y mo dy, ongoingResult today ns = TsVal.str (strfDate y mo dy) ∧
        validYMD y mo dy = true := by
  match ns with
  | [] =>
    rcases mkOngoing_shape today.year today.month today.day with h | ⟨h1, h2⟩
    · exact Or.inl h
    · exact Or.inr ⟨_, _, _, h1, h2⟩
  | [n0] =>
    rcases mkOngoing_shape today.year n0 today.day with h | ⟨h1, h2⟩
    · exact Or.inl h
    · exact Or.inr ⟨_, _, _, h1, h2⟩
  | [n0, n1] =>
    rcases mkOngoing_shape today.year n0 n1 with h | ⟨h1, h2⟩
    · exact Or.inl h
    · exact Or.inr ⟨_, _, _, h1, h2⟩
  | n0 :: n1 :: n2 :: t =>
    rcases mkOngoing_shape (if n2 < 100 then n2 + 2000 else n2) n0 n1 with h | ⟨h1, h2⟩
    · exact Or.inl h
    · exact Or.inr ⟨_, _, _, h1, h2⟩

theorem timespanOf_shape (today : PyDate) (vs : String)
    (h : timespanOf today vs ≠ TsVal.pyNone) :
    (∃ n : Nat, timespanOf today vs = TsVal.int (n : Int)) ∨
    timespanOf today vs = TsVal.str "toStartOfMonth(today())" ∨
    timespanOf today vs = TsVal.str "toStartOfYear(today())" ∨
    (∃ mo dy, timespanOf today vs = TsVal.str
        (pad4 today.year ++ "-" ++ pad2 mo ++ "-" ++ pad2 dy) ∧ mo ≤ 99 ∧ dy ≤ 99) ∨
    (∃ y mo dy, timespanOf today vs = TsVal.str (strfDate y mo dy) ∧
        validYMD y mo dy = true) := by
  by_cases h1 : strContains vs "present" = true
  · rcases hs : searchMMDD vs.data with _ | ⟨mo, dy⟩
    · exact absurd (by rw [timespanOf, if_pos h1, hs]) h
    · have heval : timespanOf today vs =
          TsVal.str (pad4 today.year ++ "-" ++ pad2 mo ++ "-" ++ pad2 dy) := by
        rw [timespanOf, if_pos h1, hs]
      exact Or.inr (Or.inr (Or.inr (Or.inl
        ⟨mo, dy, heval, (searchMMDD_le hs).1, (searchMMDD_le hs).2⟩)))
  · by_cases h2 : (strContains vs "mtd" || strContains vs "month to date") = true
    · exact Or.inr (Or.inl (by rw [timespanOf, if_neg h1, if_pos h2]))
    · by_cases h3 : (strContains vs "ytd" || strContains vs "year to date") = true
      · exact Or.inr (Or.inr (Or.inl (by rw [timespanOf, if_neg h1, if_neg h2, if_pos h3])))
      · by_cases h4 : (strContains vs "prior day" || strContains vs "previous day") = true
        · refine Or.inl ⟨1, ?_⟩
          rw [timespanOf, if_neg h1, if_neg h2, if_neg h3, if_pos h4]
          norm_num
        · by_cases h5 : (strContains vs "ongoing" || strContains vs "starting") = true
          · have heval : timespanOf today vs =
                ongoingResult today (findAllNums vs.data) := by
              rw [timespanOf, if_neg h1, if_neg h2, if_neg h3, if_neg h4, if_pos h5]
            rcases ongoingResult_shape today (findAllNums vs.data) with hsh | ⟨y, mo, dy, hsh, hv⟩
            · exact absurd (heval.trans hsh) h
            · exact Or.inr (Or.inr (Or.inr (Or.inr ⟨y, mo, dy, heval.trans hsh, hv⟩)))
          · rcases hs : searchNumDay vs.data with _ | n
            · exact absurd
                (by rw [timespanOf, if_neg h1, if_neg h2, if_neg h3, if_neg h4, if_neg h5, hs]) h
            · refine Or.inl ⟨n, ?_⟩
              rw [timespanOf, if_neg h1, if_neg h2, if_neg h3, if_neg h4, if_neg h5, hs]

/-- **C7** (amended, proved).  Every non-unparsed result of the Timespan
Resolver is one of: a nonnegative integer day-count (zero included — the
spec's "positive" fails at `"last 0 days"`), the MTD rolling-window
marker, the YTD rolling-window marker, a current-year date string built
from the raw extracted 1-2 digit month/day of the `present` branch
(not validated as a calendar date), or a validated calendar start date
from the ongoing/starting branch. -/
theorem C7_amended_result_shape (today : PyDate) (rows : List String)
    (h : discover_timespan today rows ≠ TsVal.pyNone) :
    (∃ n : Nat, discover_timespan today rows = TsVal.int (n : Int)) ∨
    discover_timespan today rows = TsVal.str "toStartOfMonth(today())" ∨
    discover_timespan today rows = TsVal.str "toStartOfYear(today())" ∨
    (∃ mo dy, discover_timespan today rows = TsVal.str
        (pad4 today.year ++ "-" ++ pad2 mo ++ "-" ++ pad2 dy) ∧ mo ≤ 99 ∧ dy ≤ 99) ∨
    (∃ y mo dy, discover_timespan today rows = TsVal.str (strfDate y mo dy) ∧
        validYMD y mo dy = true) := by
  match rows with
  | [] => exact absurd rfl h
  | v0 :: rest =>
    have hd : discover_timespan today (v0 :: rest) = timespanOf today (pyLower v0) := rfl
    rw [hd] at h ⊢
    exact timespanOf_shape today (pyLower v0) h

/-- Witness for the amended C7 on the timespan text `"mtd"`. -/
theorem C7_amended_result_shape_witness :
    (discover_timespan ⟨2026, 10, 12⟩ ["mtd"] ≠ TsVal.pyNone) ∧
    ((∃ n : Nat, discover_timespan ⟨2026, 10, 12⟩ ["mtd"] = TsVal.int (n : Int)) ∨
     discover_timespan ⟨2026, 10, 12⟩ ["mtd"] = TsVal.str "toStartOfMonth(today())" ∨
     discover_timespan ⟨2026, 10, 12⟩ ["mtd"] = TsVal.str "toStartOfYear(today())" ∨
     (∃ mo dy, discover_timespan ⟨2026, 10, 12⟩ ["mtd"] = TsVal.str
         (pad4 (2026 : Nat) ++ "-" ++ pad2 mo ++ "-" ++ pad2 dy) ∧ mo ≤ 99 ∧ dy ≤ 99) ∨
     (∃ y mo dy, discover_timespan ⟨2026, 10, 12⟩ ["mtd"] = TsVal.str (strfDate y mo dy) ∧
         validYMD y mo dy = true)) :=
  ⟨by decide, C7_amended_result_shape ⟨2026, 10, 12⟩ ["mtd"] (by decide)⟩

/-! ## Unmapped fields in the column pipeline (C8) -/

theorem isPrefixOf_extend {l₁ : List Char} (post : List Char) :
    ∀ {l₂ : List Char}, l₁.isPrefixOf l₂ = true → l₁.isPrefixOf (l₂ ++ post) = true := by
  induction l₁ with
  | nil => intro l₂ _; simp [List.isPrefixOf]
  | cons a t ih =>
    intro l₂ h
    cases l₂ with
    | nil => simp [List.isPrefixOf] at h
    | cons b t₂ =>
      simp only [List.isPrefixOf, Bool.and_eq_true] at h
      simp only [List.cons_append, List.isPrefixOf, Bool.and_eq_true]
      exact ⟨h.1, ih h.2⟩

theorem containsSeg_nil_needle (hay : List Char) : containsSeg hay [] = true := by
  induction hay with
  | nil => rfl
  | cons c t ih => simp [containsSeg, List.isPrefixOf]

theorem containsSeg_of_prefix {rest needle : List Char}
    (h : needle.isPrefixOf rest = true) : containsSeg rest needle = true := by
  cases rest with
  | nil =>
    cases needle with
    | nil => rfl
    | cons c t => simp [List.isPrefixOf] at h
  | cons c t => simp [containsSeg, h]

theorem containsSeg_append_left (pre : List Char) {rest needle : List Char}
    (h : containsSeg rest needle = true) : containsSeg (pre ++ rest) needle = true := by
  induction pre with
  | nil => simpa
  | cons c t ih => simp [containsSeg, ih]

theorem containsSeg_append_right {hay needle : List Char} (post : List Char)
    (h : containsSeg hay needle = true) : containsSeg (hay ++ post) needle = true := by
  induction hay with
  | nil =>
    cases needle with
    | nil => exact containsSeg_nil_needle post
    | cons c t => simp [containsSeg] at h
  | cons c t ih =>
    simp only [containsSeg, Bool.or_eq_true] at h
    rcases h with h | h
    · simp only [List.cons_append, containsSeg, Bool.or_eq_true]
      exact Or.inl (isPrefixOf_extend post h)
    · simp only [List.cons_append, containsSeg, Bool.or_eq_true]
      exact Or.inr (ih h)

theorem isPrefixOf_self (l : List Char) : l.isPrefixOf l = true := by
  have h := isPrefixOf_self_append l []
  rwa [List.append_nil] at h

theorem strContains_joinSep {l : List String} {x : String} (hx : x ∈ l) (sep : String) :
    strContains (joinSep sep l) x = true := by
  induction l with
  | nil => simp at hx
  | cons a t ih =>
    rcases List.mem_cons.mp hx with rfl | hx'
    · cases t with
      | nil =>
        rw [joinSep, strContains]
        exact containsSeg_of_prefix (isPrefixOf_self x.data)
      | cons b t' =>
        rw [joinSep, strContains, data_append, data_append, List.append_assoc]
        exact containsSeg_of_prefix (isPrefixOf_self_append _ _)
    · cases t with
      | nil => simp at hx'
      | cons b t' =>
        rw [joinSep, strContains, data_append, data_append, List.append_assoc]
        apply containsSeg_append_left
        apply containsSeg_append_left
        exact ih hx'

theorem selectRows_mem {cols : String} {r : ColRow} (hr : r ∈ selectRows cols) :
    ∃ tok, r = mkColRow tok := by
  rw [selectRows] at hr
  obtain ⟨hr', _⟩ := List.mem_filter.mp hr
  obtain ⟨tok, _, rfl⟩ := List.mem_map.mp hr'
  exact ⟨tok, rfl⟩

/-- **C8** (confirmed).  A requested field whose key is absent from the
mapping table yields a row with a null expression; it is not classified
as aggregate, the GROUP BY items are drawn only from rows with non-null
expressions (the `dropna`), yet the row's `alias|label` entry still
appears in the column manifest and its ` as alias` fragment (with an
empty expression) still appears in the generated SELECT text, and the
pipeline raises no error (all the melted outputs are total functions of
the input text). -/
theorem C8_unmapped_field (cols : String) (r : ColRow)
    (hr : r ∈ selectRows cols) (hnone : r.selects_for_sql = none) :
    isAggRow r = false ∧
    r.json_col_names ∈ (selectRows cols).map (fun x => x.json_col_names) ∧
    strContains (meltedColumnNames cols) r.json_col_names = true ∧
    r.final_sql_select_column = " as " ++ r.aliases_for_sql ∧
    strContains (meltedBaseSql cols) r.final_sql_select_column = true ∧
    ∀ e ∈ groupByItems cols, ∃ x ∈ selectRows cols, x.selects_for_sql = some e := by
  refine ⟨?_, ?_, ?_, ?_, ?_, ?_⟩
  · simp [isAggRow, hnone]
  · exact List.mem_map_of_mem _ hr
  · rw [meltedColumnNames]
    exact strContains_joinSep (List.mem_map_of_mem _ hr) ", "
  · obtain ⟨tok, rfl⟩ := selectRows_mem hr
    have hproj : (mkColRow tok).final_sql_select_column =
        (mkColRow tok).selects_for_sql.getD "" ++ " as " ++ (mkColRow tok).aliases_for_sql := rfl
    rw [hproj, hnone]
    rfl
  · rw [meltedBaseSql, strContains, data_append, data_append, List.append_assoc]
    apply containsSeg_append_left
    apply containsSeg_append_right
    exact strContains_joinSep (List.mem_map_of_mem (fun x => x.final_sql_select_column) hr) ", "
  · intro e he
    rw [groupByItems] at he
    obtain ⟨x, hx, hxe⟩ := List.mem_filterMap.mp he
    rw [groupByRows] at hx
    exact ⟨x, (List.mem_filter.mp hx).1, hxe⟩

/-- Witness for C8 on the unmapped field `"bounce rate"`. -/
theorem C8_unmapped_field_witness :
    (mkColRow "bounce rate" ∈ selectRows "bounce rate" ∧
     (mkColRow "bounce rate").selects_for_sql = none) ∧
    (isAggRow (mkColRow "bounce rate") = false ∧
     (mkColRow "bounce rate").json_col_names ∈
       (selectRows "bounce rate").map (fun x => x.json_col_names) ∧
     strContains (meltedColumnNames "bounce rate") (mkColRow "bounce rate").json_col_names = true ∧
     (mkColRow "bounce rate").final_sql_select_column =
       " as " ++ (mkColRow "bounce rate").aliases_for_sql ∧
     strContains (meltedBaseSql "bounce rate")
       (mkColRow "bounce rate").final_sql_select_column = true ∧
     ∀ e ∈ groupByItems "bounce rate",
       ∃ x ∈ selectRows "bounce rate", x.selects_for_sql = some e) :=
  ⟨⟨by decide, rfl⟩,
   C8_unmapped_field "bounce rate" (mkColRow "bounce rate") (by decide) rfl⟩

/-! ## Schedule-interpreter invariant (C5) -/

theorem isDigitString_natRepr (n : Nat) : isDigitString (natRepr n) = true :=
  pyIsDigitStr_natDigits n

theorem natDigits_ne_space (n : Nat) : ∀ c ∈ natDigits n, c ≠ ' ' :=
  fun c hc => isDigitChar_ne_space (natDigits_all c hc)

theorem spaceFields_mkDaily (m h : Nat) :
    spaceFields (mkDailyCron m h) = [natRepr m, natRepr h, "*", "*", "*"] := by
  rw [spaceFields, mkDailyCron, data_daily]
  have h5 := splitCh_five (A := natDigits m) (B := natDigits h)
    (C := ['*']) (D := ['*']) (E := ['*'])
    (natDigits_ne_space m) (natDigits_ne_space h)
    (by decide) (by decide) (by decide)
  show splitCh ' ' _ = [String.mk (natDigits m), String.mk (natDigits h),
    String.mk ['*'], String.mk ['*'], String.mk ['*']]
  rw [← h5]
  congr 1
  simp

theorem spaceFields_mkWeekly (m h w : Nat) :
    spaceFields (mkWeeklyCron m h w) = [natRepr m, natRepr h, "*", "*", natRepr w] := by
  rw [spaceFields, mkWeeklyCron, data_weekly]
  have h5 := splitCh_five (A := natDigits m) (B := natDigits h)
    (C := ['*']) (D := ['*']) (E := natDigits w)
    (natDigits_ne_space m) (natDigits_ne_space h)
    (by decide) (by decide) (natDigits_ne_space w)
  show splitCh ' ' _ = [String.mk (natDigits m), String.mk (natDigits h),
    String.mk ['*'], String.mk ['*'], String.mk (natDigits w)]
  rw [← h5]
  congr 1
  simp

theorem emod24_toNat_lt (z : Int) : (z % 24).toNat < 24 := by
  have h0 : 0 ≤ z % 24 := Int.emod_nonneg z (by norm_num)
  have h1 : z % 24 < 24 := Int.emod_lt_of_pos z (by norm_num)
  omega

theorem weekdayLookup_le {l : List (String × Nat)} (hl : ∀ p ∈ l, p.2 ≤ 6)
    {f : String} {v : Nat} (h : weekdayLookup l f = some v) : v ≤ 6 := by
  induction l with
  | nil => simp [weekdayLookup] at h
  | cons p t ih =>
    rw [weekdayLookup] at h
    by_cases hc : strContains f p.1 = true
    · rw [if_pos hc] at h
      cases h
      exact hl p (List.mem_cons_self _ _)
    · rw [if_neg hc] at h
      exact ih (fun q hq => hl q (List.mem_cons_of_mem _ hq)) h

theorem cronWeek_le (first : String) : cronWeek first ≤ 6 := by
  rw [cronWeek]
  rcases h : weekdayLookup weekdayPairs first with _ | v
  · simp
  · simp only [Option.getD_some]
    exact weekdayLookup_le (by decide) h

theorem dedup_ne_nil {l : List String} (h : l ≠ []) : dedup l ≠ [] := by
  obtain ⟨a, t, rfl⟩ := List.exists_cons_of_ne_nil h
  rw [dedup, dedupAux]
  simp

/-- **C5** (confirmed).  Every cron string produced by the Schedule
Interpreter on a nonempty schedule-text series has exactly five
space-separated fields: the minute and hour fields are concrete decimal
integers with the hour in `[0, 24)` (the `% 24` normalisation), fields
3 and 4 are `*`, and field 5 is `*` or an integer in `[0, 6]`. -/
theorem C5_cron_invariant (rows : List String) (hrows : rows ≠ []) :
    ∃ c, discover_cron rows = some c ∧
      ∃ m hr : Nat, hr < 24 ∧ isDigitString (natRepr m) = true ∧
        isDigitString (natRepr hr) = true ∧
        (spaceFields c = [natRepr m, natRepr hr, "*", "*", "*"] ∨
         ∃ w : Nat, w ≤ 6 ∧ spaceFields c = [natRepr m, natRepr hr, "*", "*", natRepr w]) := by
  have hmap : rows.map pyLower ≠ [] := by
    obtain ⟨a, t, rfl⟩ := List.exists_cons_of_ne_nil hrows
    simp
  obtain ⟨first, rest, hfr⟩ := List.exists_cons_of_ne_nil (dedup_ne_nil hmap)
  have hval : discover_cron rows =
      (if strContains first "daily" || strContains first " day" then
        some (mkDailyCron (cronMinute (first :: rest))
          (((cronHourTz first (cronHour0 (first :: rest))) % 24).toNat))
      else
        some (mkWeeklyCron (cronMinute (first :: rest))
          (((cronHourTz first (cronHour0 (first :: rest))) % 24).toNat)
          (cronWeek first))) := by
    rw [discover_cron, hfr]
  by_cases hb : (strContains first "daily" || strContains first " day") = true
  · rw [if_pos hb] at hval
    refine ⟨_, hval, cronMinute (first :: rest),
      ((cronHourTz first (cronHour0 (first :: rest))) % 24).toNat,
      emod24_toNat_lt _, isDigitString_natRepr _, isDigitString_natRepr _, ?_⟩
    left
    exact spaceFields_mkDaily _ _
  · rw [if_neg hb] at hval
    refine ⟨_, hval, cronMinute (first :: rest),
      ((cronHourTz first (cronHour0 (first :: rest))) % 24).toNat,
      emod24_toNat_lt _, isDigitString_natRepr _, isDigitString_natRepr _, ?_⟩
    right
    exact ⟨cronWeek first, cronWeek_le first, spaceFields_mkWeekly _ _ _⟩

/-- Witness for C5 on the schedule text `"daily at 2 pm"`. -/
theorem C5_cron_invariant_witness :
    ((["daily at 2 pm"] : List String) ≠ []) ∧
    (∃ c, discover_cron ["daily at 2 pm"] = some c ∧
      ∃ m hr : Nat, hr < 24 ∧ isDigitString (natRepr m) = true ∧
        isDigitString (natRepr hr) = true ∧
        (spaceFields c = [natRepr m, natRepr hr, "*", "*", "*"] ∨
         ∃ w : Nat, w ≤ 6 ∧ spaceFields c = [natRepr m, natRepr hr, "*", "*", natRepr w])) :=
  ⟨by decide, C5_cron_invariant ["daily at 2 pm"] (by decide)⟩

/-- Witness for C6 at `M = 30`, `H = 8`, `w = 2`. -/
theorem C6_lag_round_trip_witness :
    (8 < 24 ∧ 2 ≤ 6) ∧
    (timedelta_calculator (natRepr 30 ++ " " ++ natRepr 8 ++ " * * *") =
       Except.ok ("Daily", (8 : Int) - 3, (30 : Int)) ∧
     timedelta_calculator (natRepr 30 ++ " " ++ natRepr 8 ++ " * * " ++ natRepr 2) =
       Except.ok ("Weekly", -(((2 : Int)) * 24 - ((8 : Int) - 3)), (30 : Int))) :=
  ⟨⟨by decide, by decide⟩, C6_lag_round_trip 30 8 2 (by decide) (by decide)⟩

end JiraAirflow
